import Mathlib

/-!
Shallow embedding of the pencil-actions design-review engine
(RemoteState/pencil-actions, TypeScript sources under src/).

Source files covered:
- `src/pen-parser.ts` — loading and frame extraction from `.pen` JSON documents;
- `src/renderers/service.ts` — the batch-and-cache `ServiceRenderer` and its
  submit-then-poll job protocol;
- `src/github/comments.ts` — marked-comment reconciliation (`postComment`);
- `src/main.ts` — the orchestrator (`run`, `runFullMode`, `runDiffMode`).

Machine integers are modelled as `Nat`/`Int`; network and filesystem effects
are modelled as explicit environments passed by value; every fallible source
operation returns `Except`/`Option`.
-/

namespace PencilActions

/-- A JSON value, as produced by `JSON.parse` on a `.pen` file.  Numeric
literals are modelled on the integer grid (no claim depends on fractional
values). -/
inductive Json where
  | null
  | bool (b : Bool)
  | num (n : Int)
  | str (s : String)
  | arr (items : List Json)
  | obj (fields : List (String × Json))

/-- Property lookup on a JSON value when the access cannot throw: an object
yields its field (first binding wins, as after `JSON.parse` deduplication),
any other non-null value yields `undefined` (`none`). -/
def jsField : Json → String → Option Json
  | Json.obj fields, k => (fields.find? (fun f => f.1 == k)).map (fun f => f.2)
  | _, _ => none

/-- JavaScript property access `j[k]`: throws a TypeError on `null`,
otherwise behaves as `jsField` (`undefined` for absent/non-object). -/
def jsGet (j : Json) (k : String) : Except String (Option Json) :=
  match j with
  | Json.null => Except.error "TypeError: Cannot read properties of null"
  | _ => Except.ok (jsField j k)

/-- Frame record extracted by the parser (`PenFrame` in `src/types.ts`).
Geometry is on the integer grid of the model. -/
structure PenFrame where
  id : String
  name : String
  type : String
  width : Option Int := none
  height : Option Int := none
  x : Option Int := none
  y : Option Int := none
  reusable : Option Bool := none
deriving DecidableEq, Repr

/-- `parseNumericValue` from `src/pen-parser.ts`: a number passes through, a
string goes through `parseFloat` (modelled as integer parsing — the symbolic
sizing keywords such as `"fill_container"` yield `undefined` either way). -/
def parseNumericValue : Option Json → Option Int
  | some (Json.num n) => some n
  | some (Json.str s) => s.toInt?
  | _ => none

/-- Build a `PenFrame` from a frame node (`src/pen-parser.ts:101-110`).  The
node is a non-null JSON value whose `type` field is the string `"frame"`,
hence an object.  Ids are strings in every well-formed document; a non-string
id is modelled as `""`. -/
def mkPenFrame (child : Json) : PenFrame :=
  let idStr := match jsField child "id" with
    | some (Json.str s) => s
    | _ => ""
  { id := idStr
  , name := match jsField child "name" with
      | some (Json.str s) => if s = "" then "Frame " ++ idStr else s
      | _ => "Frame " ++ idStr
  , type := "frame"
  , width := parseNumericValue (jsField child "width")
  , height := parseNumericValue (jsField child "height")
  , x := match jsField child "x" with
      | some (Json.num n) => some n
      | _ => none
  , y := match jsField child "y" with
      | some (Json.num n) => some n
      | _ => none
  , reusable := match jsField child "reusable" with
      | some (Json.bool b) => some b
      | _ => none }

/-- The loop body of `getTopLevelFrames` (`src/pen-parser.ts:99-113`): keep
every direct child whose `type` field is `"frame"`.  Reading `child.type` on a
null child throws a TypeError, which propagates. -/
def collectTop : List Json → Except String (List PenFrame)
  | [] => Except.ok []
  | child :: rest => do
    let ty ← jsGet child "type"
    match ty with
    | some (Json.str s) =>
      if s = "frame" then
        let tail ← collectTop rest
        Except.ok (mkPenFrame child :: tail)
      else
        collectTop rest
    | _ => collectTop rest

/-- `getTopLevelFrames` (`src/pen-parser.ts:95-116`) under JavaScript
semantics: `document.children` throws on a null document, a falsy `children`
value yields no frames, an array is iterated, a truthy string iterates its
characters (none of which carries a `type` field, so no frames result), and
any other truthy value makes `for…of` throw. -/
def getTopLevelFrames (document : Json) : Except String (List PenFrame) := do
  let childrenOpt ← jsGet document "children"
  match childrenOpt with
  | none => Except.ok []
  | some Json.null => Except.ok []
  | some (Json.bool false) => Except.ok []
  | some (Json.num 0) => Except.ok []
  | some (Json.str "") => Except.ok []
  | some (Json.arr items) => collectTop items
  | some (Json.str _) => Except.ok []
  | some _ => Except.error "TypeError: document.children is not iterable"

/-- Content of a `.pen` file on disk, as seen by `loadPenDocument`: the file
may be missing, fail `JSON.parse`, or parse to a JSON value.  No further
validation happens at load time. -/
inductive FileContent where
  | notFound
  | malformed
  | doc (j : Json)

/-- `loadPenDocument` (`src/pen-parser.ts:157-172`): a missing file and a
`JSON.parse` failure each throw; any parsed JSON value — object or not — is
returned as the document without validation. -/
def loadPenDocument (fc : FileContent) (filePath : String) : Except String Json :=
  match fc with
  | FileContent.notFound => Except.error ("File not found: " ++ filePath)
  | FileContent.malformed => Except.error ("Failed to parse .pen file: " ++ filePath)
  | FileContent.doc j => Except.ok j

/-! ## ServiceRenderer (`src/renderers/service.ts`) -/

/-- One per-frame screenshot in a completed job result
(`ServiceScreenshot` in `src/renderers/service.ts:32-40`). -/
structure ServiceScreenshot where
  frameId : String
  frameName : String
  width : Int
  height : Int
  format : String
  scale : Int
  imageUrl : String
deriving DecidableEq, Repr

/-- A per-frame rendering error reported inside a successful job result. -/
structure ServiceFrameError where
  frameId : String
  frameName : String
  error : String
deriving DecidableEq, Repr

/-- Result payload of a completed job (`ServiceResponse`,
`src/renderers/service.ts:42-46`). -/
structure ServiceResponse where
  success : Bool
  screenshots : List ServiceScreenshot
  errors : List ServiceFrameError := []
deriving DecidableEq, Repr

/-- Cached result for a single frame (`CachedFrame`,
`src/renderers/service.ts:67-72`). -/
structure CachedFrame where
  format : String
  width : Int
  height : Int
  imageUrl : String
deriving DecidableEq, Repr

/-- Outcome of one whole submit-then-poll exchange for one `.pen` file, as
observed by `fetchAllFrames`.  Each non-`ok` constructor corresponds to one
of the exceptions the source can throw between submission and completion;
the poll loop producing these outcomes is modelled separately below
(`pollForCompletion`). -/
inductive SubmitOutcome where
  | ok (resp : ServiceResponse)
  | httpError (status : Nat) (body : String)
  | pollHttpError (status : Nat) (body : String)
  | jobFailed (jobId : String) (err : Option String)
  | noResult (jobId : String)
  | jobTimeout (jobId : String) (secs : Nat)
deriving DecidableEq, Repr

/-- `true` on every outcome on which `fetchAllFrames` throws. -/
def isSubmitFailure : SubmitOutcome → Bool
  | SubmitOutcome.ok _ => false
  | _ => true

/-- Message of the exception thrown when the submission returns a non-success
HTTP status (`src/renderers/service.ts:256-259`). -/
def submitErrorMsg (status : Nat) (body : String) : String :=
  "Screenshot service returned " ++ toString status ++ ": " ++ body

/-- Message of the exception thrown when a poll request returns a non-success
HTTP status (`src/renderers/service.ts:329-331`). -/
def pollErrorMsg (status : Nat) (body : String) : String :=
  "Job status request failed with " ++ toString status ++ ": " ++ body

/-- Message of the exception thrown on terminal `failed` status
(`src/renderers/service.ts:354-356`). -/
def jobFailedMsg (jobId : String) (err : Option String) : String :=
  "Job " ++ jobId ++ " failed: " ++ err.getD "Unknown error"

/-- Message of the exception thrown when a completed job carries no result
(`src/renderers/service.ts:345-348`). -/
def noResultMsg (jobId : String) : String :=
  "Job " ++ jobId ++ " completed but returned no result"

/-- Message of the exception thrown when the poll loop exceeds its budget
(`src/renderers/service.ts:313-316`). -/
def jobTimeoutMsg (jobId : String) (secs : Nat) : String :=
  "Job " ++ jobId ++ " timed out after " ++ toString secs ++ "s"

/-- The exception message carried by a failing `SubmitOutcome`. -/
def submitFailureMsg : SubmitOutcome → String
  | SubmitOutcome.ok _ => ""
  | SubmitOutcome.httpError s b => submitErrorMsg s b
  | SubmitOutcome.pollHttpError s b => pollErrorMsg s b
  | SubmitOutcome.jobFailed j e => jobFailedMsg j e
  | SubmitOutcome.noResult j => noResultMsg j
  | SubmitOutcome.jobTimeout j secs => jobTimeoutMsg j secs

/-- Mutable state of a `ServiceRenderer` instance
(`src/renderers/service.ts:91-94`): the per-file frame cache and the set of
files already sent to the API.  Both maps are modelled as association lists
whose lookup returns the most recent binding, matching `Map`/`Set`. -/
structure RendererState where
  cache : List (String × List (String × CachedFrame))
  sentFiles : List String
deriving DecidableEq, Repr

/-- The renderer state at construction time: empty cache, nothing sent. -/
def initialRendererState : RendererState := { cache := [], sentFiles := [] }

/-- `this.cache.get(path)`. -/
def cacheGet (cache : List (String × List (String × CachedFrame))) (p : String) :
    Option (List (String × CachedFrame)) :=
  (cache.find? (fun e => e.1 == p)).map (fun e => e.2)

/-- `fileCache.get(frameId)`. -/
def frameGet (m : List (String × CachedFrame)) (fid : String) : Option CachedFrame :=
  (m.find? (fun e => e.1 == fid)).map (fun e => e.2)

/-- Build the per-frame map from a job result
(`src/renderers/service.ts:278-287`).  Later screenshots for a duplicate
frame id overwrite earlier ones (`Map.set` semantics): prepending keeps the
last write first, where `frameGet` finds it. -/
def buildFrameMap (shots : List ServiceScreenshot) : List (String × CachedFrame) :=
  shots.foldl
    (fun m s =>
      (s.frameId,
        { format := s.format, width := s.width, height := s.height,
          imageUrl := s.imageUrl }) :: m)
    []

/-- `fetchAllFrames` (`src/renderers/service.ts:231-301`): mark the file as
sent first, then submit exactly one job; on success cache all returned
screenshots, on any failure rethrow with the file still marked sent and the
cache untouched.  The third component counts job submissions (always one per
call).  OIDC token refresh and log lines have no observable effect here. -/
def fetchAllFrames (submit : String → SubmitOutcome) (st : RendererState)
    (p : String) : Except String Unit × RendererState × Nat :=
  let st1 : RendererState := { st with sentFiles := p :: st.sentFiles }
  match submit p with
  | SubmitOutcome.ok resp =>
    (Except.ok (),
      { st1 with cache := (p, buildFrameMap resp.screenshots) :: st1.cache }, 1)
  | o => (Except.error (submitFailureMsg o), st1, 1)

/-- `ScreenshotResult` (`src/types.ts`), plus the `imageUrl` field the
service renderer attaches (`src/renderers/service.ts:179-181`). -/
structure ScreenshotResult where
  frameId : String
  frameName : String
  filePath : String
  screenshotPath : String
  success : Bool
  error : Option String := none
  width : Option Int := none
  height : Option Int := none
  imageUrl : Option String := none
deriving DecidableEq, Repr

/-- `createSuccessResult` (`src/renderers/base.ts`). -/
def createSuccessResult (frame : PenFrame) (filePath screenshotPath : String) :
    ScreenshotResult :=
  { frameId := frame.id, frameName := frame.name, filePath := filePath
  , screenshotPath := screenshotPath, success := true
  , width := frame.width, height := frame.height }

/-- `createErrorResult` (`src/renderers/base.ts`). -/
def createErrorResult (frame : PenFrame) (filePath error : String) :
    ScreenshotResult :=
  { frameId := frame.id, frameName := frame.name, filePath := filePath
  , screenshotPath := "", success := false, error := some error }

/-- The cache-lookup-and-download half of `ServiceRenderer.renderFrame`
(`src/renderers/service.ts:154-181`).  `dl` models the image download
(`fetch(cached.imageUrl)`): `ok` when the response is ok and the file write
succeeds, `error status` on a non-success download status. -/
def serveFromCache (dl : String → Except Nat Unit) (st : RendererState)
    (p : String) (frame : PenFrame) (outputPath : String) : ScreenshotResult :=
  match (cacheGet st.cache p).bind (fun m => frameGet m frame.id) with
  | none =>
    createErrorResult frame p ("Frame " ++ frame.id ++ " not found in API response")
  | some cached =>
    match dl cached.imageUrl with
    | Except.error status =>
      createErrorResult frame p ("Failed to download image: " ++ toString status)
    | Except.ok _ =>
      { createSuccessResult frame p outputPath with imageUrl := some cached.imageUrl }

/-- `ServiceRenderer.renderFrame` (`src/renderers/service.ts:143-189`): fetch
the whole file on first touch, catch any exception into a per-frame error
result, otherwise serve the frame from the cache.  Returns the result, the
renderer state after the call, and the number of job submissions issued. -/
def serviceRenderFrame (submit : String → SubmitOutcome)
    (dl : String → Except Nat Unit) (st : RendererState) (p : String)
    (frame : PenFrame) (outputPath : String) :
    ScreenshotResult × RendererState × Nat :=
  if st.sentFiles.contains p then
    (serveFromCache dl st p frame outputPath, st, 0)
  else
    match fetchAllFrames submit st p with
    | (Except.error msg, st', n) => (createErrorResult frame p msg, st', n)
    | (Except.ok _, st', n) => (serveFromCache dl st' p frame outputPath, st', n)

/-- `ServiceRenderer.cleanup` (`src/renderers/service.ts:191-195`): the only
place the cache and the sent-file set are cleared. -/
def cleanupRenderer (_st : RendererState) : RendererState := initialRendererState

/-- One `renderFrame` invocation as issued by the orchestrator. -/
structure RenderCall where
  path : String
  frame : PenFrame
  out : String
deriving DecidableEq, Repr

/-- Total number of job submissions attributable to file `p` across a
sequence of `renderFrame` calls threading the renderer state. -/
def subsForPath (submit : String → SubmitOutcome) (dl : String → Except Nat Unit)
    (p : String) : RendererState → List RenderCall → Nat
  | _, [] => 0
  | st, c :: rest =>
    (if c.path = p then (serviceRenderFrame submit dl st c.path c.frame c.out).2.2
     else 0)
    + subsForPath submit dl p
        (serviceRenderFrame submit dl st c.path c.frame c.out).2.1 rest

/-! ## The poll loop (`ServiceRenderer.pollForCompletion`) -/

/-- `POLL_INITIAL_INTERVAL_MS` (`src/renderers/service.ts:74`). -/
def pollInitialIntervalMs : Nat := 2000

/-- `POLL_MAX_INTERVAL_MS` (`src/renderers/service.ts:76`). -/
def pollMaxIntervalMs : Nat := 15000

/-- `POLL_TIMEOUT_MS` (`src/renderers/service.ts:77`). -/
def pollTimeoutMs : Nat := 600000

/-- `Math.min(interval * POLL_MULTIPLIER, POLL_MAX_INTERVAL_MS)` with
multiplier 1.5 (`src/renderers/service.ts:359`).  On every interval the loop
can reach from its 2000 ms start (2000, 3000, 4500, 6750, 10125, 15000) the
product by 3/2 is exact or capped, so `Nat` division loses nothing. -/
def nextInterval (interval : Nat) : Nat :=
  min (interval * 3 / 2) pollMaxIntervalMs

/-- Body of a poll response: the HTTP layer may fail, otherwise a
`JobStatusResponse` arrives (`src/renderers/service.ts:55-64`). -/
inductive JobStatusR where
  | queued (pos : Int)
  | processing (pos : Int)
  | completed (result : Option ServiceResponse)
  | failed (err : Option String)
deriving DecidableEq, Repr

/-- One poll exchange as seen by the loop. -/
inductive PollResp where
  | httpError (status : Nat)
  | ok (s : JobStatusR)
deriving DecidableEq, Repr

/-- How `pollForCompletion` ends when it does not return a result. -/
inductive PollError where
  | timeout
  | http (status : Nat)
  | jobFailed (err : Option String)
  | noResult
  | fuelOut
deriving DecidableEq, Repr

/-- A poll response that keeps the loop going. -/
def isNonTerminal : PollResp → Prop
  | PollResp.ok (JobStatusR.queued _) => True
  | PollResp.ok (JobStatusR.processing _) => True
  | _ => False

instance (r : PollResp) : Decidable (isNonTerminal r) := by
  unfold isNonTerminal
  cases r with
  | httpError s => exact inferInstanceAs (Decidable False)
  | ok s =>
    cases s with
    | queued p => exact inferInstanceAs (Decidable True)
    | processing p => exact inferInstanceAs (Decidable True)
    | completed r => exact inferInstanceAs (Decidable False)
    | failed e => exact inferInstanceAs (Decidable False)

/-- `ServiceRenderer.pollForCompletion` (`src/renderers/service.ts:306-361`)
over an abstract schedule `responses` giving the k-th poll's answer.  Elapsed
time is the sum of the sleeps performed so far (request latency is not
modelled).  Each iteration checks the budget, sleeps, polls once, and either
returns, throws, or continues with the backed-off interval.  `fuel` bounds
the recursion; the termination theorem shows any fuel past the timeout bound
is never consumed.  The second component counts polls issued. -/
def pollForCompletion (responses : Nat → PollResp) :
    Nat → Nat → Nat → Nat → Except PollError ServiceResponse × Nat
  | 0, k, _, _ => (Except.error PollError.fuelOut, k)
  | fuel + 1, k, elapsed, interval =>
    if pollTimeoutMs < elapsed then
      (Except.error PollError.timeout, k)
    else
      match responses k with
      | PollResp.httpError s => (Except.error (PollError.http s), k + 1)
      | PollResp.ok (JobStatusR.completed (some r)) => (Except.ok r, k + 1)
      | PollResp.ok (JobStatusR.completed none) =>
        (Except.error PollError.noResult, k + 1)
      | PollResp.ok (JobStatusR.failed e) =>
        (Except.error (PollError.jobFailed e), k + 1)
      | _ =>
        pollForCompletion responses fuel (k + 1) (elapsed + interval)
          (nextInterval interval)

/-- One step of the (elapsed, interval) clock: add the sleep just performed,
back off the interval. -/
def stepEI (ei : Nat × Nat) : Nat × Nat := (ei.1 + ei.2, nextInterval ei.2)

/-- Total sleep time before the n-th budget check, starting from the loop's
initial 2000 ms interval. -/
def elapsedAt (n : Nat) : Nat := (stepEI^[n] (0, pollInitialIntervalMs)).1

/-! ## Comment reconciliation (`src/github/comments.ts`) -/

/-- JavaScript `body.includes(marker)`: substring containment. -/
def containsStr (body sub : String) : Bool :=
  decide (sub.toList <:+: body.toList)

/-- An issue comment as the GitHub API returns it: its id and its body,
which the API may omit (`comment.body?` in the source). -/
structure Comment where
  id : Nat
  body : Option String
deriving DecidableEq, Repr

/-- The comments of one change request in ascending creation order, plus the
id the API will assign to the next created comment.  Creation appends, so
the list order stays ascending-by-creation. -/
structure CommentsState where
  comments : List Comment
  nextId : Nat
deriving DecidableEq, Repr

/-- The marker test from `src/github/comments.ts:89-92`: a comment matches
when its body exists and contains the marker; a missing body never matches.
The marker string itself is produced by `getCommentMarker` in
`comment-builder.ts`, which is not under `src/`; it is threaded here as an
opaque string parameter. -/
def matchesMarker (marker : String) (c : Comment) : Bool :=
  match c.body with
  | some b => containsStr b marker
  | none => false

/-- The pagination loop of `findExistingComment`
(`src/github/comments.ts:79-99`): fetch pages of up to 100 comments in
ascending creation order, return the first comment whose body contains the
marker, stop after the first short page. -/
def findFrom (marker : String) (cs : List Comment) : Option Nat :=
  match (cs.take 100).find? (matchesMarker marker) with
  | some c => some c.id
  | none =>
    if h : (cs.take 100).length < 100 then none
    else findFrom marker (cs.drop 100)
termination_by cs.length
decreasing_by
  simp only [List.length_drop]
  simp only [List.length_take] at h
  omega

/-- `findExistingComment` (`src/github/comments.ts:65-106`): the whole search
is wrapped in try/catch, so when the listing request errors (`listOk =
false`) the failure is logged and `undefined` is returned. -/
def findExistingComment (listOk : Bool) (marker : String) (cs : List Comment) :
    Option Nat :=
  if listOk then findFrom marker cs else none

/-- `octokit.rest.issues.updateComment`: replace the body of the comment with
the given id, in place. -/
def updateComment (cs : List Comment) (cid : Nat) (body : String) : List Comment :=
  cs.map (fun c => if c.id == cid then { c with body := some body } else c)

/-- `octokit.rest.issues.createComment`: append a new comment with a fresh id. -/
def createComment (st : CommentsState) (body : String) : CommentsState :=
  { comments := st.comments ++ [{ id := st.nextId, body := some body }]
  , nextId := st.nextId + 1 }

/-- Comment publication mode (`CommentMode` in `src/types.ts`). -/
inductive CommentMode where
  | create
  | update
  | none
deriving DecidableEq, Repr

/-- What one `postComment` call returns and does: the comment id reported to
the caller, the comments state afterwards, and whether the existing-comment
search ran. -/
structure PostResult where
  commentId : Option Nat
  state : CommentsState
  searched : Bool
deriving DecidableEq, Repr

/-- `postComment` (`src/github/comments.ts:17-60`): mode `none` skips
publishing; mode `update` searches for a marked comment and edits it in
place when found; otherwise (mode `create`, or no match found) a new comment
is created. -/
def postComment (listOk : Bool) (marker : String) (st : CommentsState)
    (mode : CommentMode) (body : String) : PostResult :=
  match mode with
  | CommentMode.none => { commentId := none, state := st, searched := false }
  | CommentMode.update =>
    match findExistingComment listOk marker st.comments with
    | some cid =>
      { commentId := some cid
      , state := { st with comments := updateComment st.comments cid body }
      , searched := true }
    | none =>
      { commentId := some st.nextId, state := createComment st body, searched := true }
  | CommentMode.create =>
    { commentId := some st.nextId, state := createComment st body, searched := false }

/-- The CommentReconciler contract stated from the spec's words (§4.4), for
comparison with `postComment`: mode `none` skips publishing and reports no
id; mode `create` always posts a new comment without searching; mode
`update` scans existing comments in ascending creation order for the first
whose (present) body contains the marker, edits it in place when found, and
posts a new comment otherwise. -/
def postCommentSpec (marker : String) (st : CommentsState) (mode : CommentMode)
    (body : String) : PostResult :=
  match mode with
  | CommentMode.none => { commentId := none, state := st, searched := false }
  | CommentMode.create =>
    { commentId := some st.nextId, state := createComment st body, searched := false }
  | CommentMode.update =>
    match st.comments.find? (matchesMarker marker) with
    | some c =>
      { commentId := some c.id
      , state := { st with comments := updateComment st.comments c.id body }
      , searched := true }
    | none =>
      { commentId := some st.nextId, state := createComment st body, searched := true }

/-- Number of live comments whose body contains the marker. -/
def countMarked (marker : String) (cs : List Comment) : Nat :=
  cs.countP (matchesMarker marker)

/-! ## DiffEngine (spec-modelled) -/

/-- A frame as the DiffEngine sees it: its id and its content fingerprint. -/
structure SpecFrame where
  id : String
  fingerprint : Nat
deriving DecidableEq, Repr

/-- The four classification lists of a diff (`DiffResult`, spec §3). -/
structure DiffResult where
  added : List String
  modified : List String
  removed : List String
  unchanged : List String
deriving DecidableEq, Repr

/-- Find the frame with the given id in an index. -/
def findById (l : List SpecFrame) (i : String) : Option SpecFrame :=
  l.find? (fun f => f.id == i)

/-- Modelled from the spec: the DiffEngine (spec §4.2) is not under `src/` —
`runDiffMode` only calls the rendering service's diff endpoint
(`renderer.fetchDiff`, whose implementation is not in the repository
sources).  Per the spec: an id only in head is added, an id only in base is
removed, an id in both is modified or unchanged according to whether the
fingerprints differ; added/modified/unchanged keep head traversal order and
removed keeps base traversal order. -/
def diffFrames (base head : List SpecFrame) : DiffResult :=
  { added := (head.filter (fun f => (findById base f.id).isNone)).map SpecFrame.id
  , modified :=
      (head.filter (fun f =>
        match findById base f.id with
        | some g => g.fingerprint != f.fingerprint
        | none => false)).map SpecFrame.id
  , removed := (base.filter (fun f => (findById head f.id).isNone)).map SpecFrame.id
  , unchanged :=
      (head.filter (fun f =>
        match findById base f.id with
        | some g => g.fingerprint == f.fingerprint
        | none => false)).map SpecFrame.id }

/-! ## Orchestrator (`src/main.ts`) -/

/-- File change status (`FileStatus` in `src/types.ts`). -/
inductive FileStatus where
  | added
  | modified
  | deleted
  | renamed
deriving DecidableEq, Repr

/-- A changed `.pen` file as detected from the change request
(`PenFile` in `src/types.ts`; the `frames` field stays empty until parsing
and is never read by the orchestrator, so it is omitted). -/
structure PenFile where
  path : String
  previousPath : Option String := none
  status : FileStatus
deriving DecidableEq, Repr

/-- Renderer selection (`RendererType` in `src/types.ts`). -/
inductive RendererType where
  | metadata
  | service
deriving DecidableEq, Repr

/-- Review mode. -/
inductive ReviewMode where
  | full
  | diff
deriving DecidableEq, Repr

/-- The run configuration the orchestrator consumes (the slice of
`ActionInputs` that reaches `runFullMode`/`runDiffMode`). -/
structure RunConfig where
  renderer : RendererType
  serviceUrl : Option String
  reviewMode : ReviewMode
  commentMode : CommentMode
  maxFramesPerFile : Nat
  includeDeleted : Bool
  outputDir : String
  imageFormat : String
  marker : String
deriving DecidableEq, Repr

/-- Summary counts of a service-side diff response, the part of the diff
payload `runDiffMode` reads (`diffResult.summary`, `src/main.ts:262`). -/
structure DiffSummary where
  added : Nat
  modified : Nat
  removed : Nat
  unchanged : Nat
deriving DecidableEq, Repr

/-- The external world of one run: file contents in the head checkout, the
screenshot service's per-file job outcome, image downloads, whether comment
listing succeeds, base-revision content lookups, and the diff endpoint's
response per path. -/
structure RunEnv where
  fileContent : String → FileContent
  submit : String → SubmitOutcome
  download : String → Except Nat Unit
  listOk : Bool
  baseContent : String → Option String
  diffResp : String → Except String DiffSummary

/-- Which renderer `initializeRenderer` (`src/main.ts:348-367`) constructs:
the service renderer when configured with a service URL, the metadata
renderer otherwise. -/
inductive RendererKind where
  | service
  | metadata
deriving DecidableEq, Repr

/-- `initializeRenderer`'s choice (`src/main.ts:351`). -/
def chooseRenderer (cfg : RunConfig) : RendererKind :=
  if cfg.renderer = RendererType.service ∧ cfg.serviceUrl.isSome then
    RendererKind.service
  else RendererKind.metadata

/-- `getOutputPath` (`src/main.ts:372-387`).  The frame-name sanitization
regex is presentation-only; the path is modelled as the joined components. -/
def getOutputPath (outputDir penFilePath : String) (frame : PenFrame)
    (format : String) : String :=
  outputDir ++ "/" ++ penFilePath ++ "/" ++ frame.id ++ "." ++ format

/-- `MetadataRenderer.renderFrame` (`src/renderers/metadata.ts`): writes a
JSON placeholder next to the would-be screenshot and reports success. -/
def metadataRenderFrame (p : String) (frame : PenFrame) (outputPath : String) :
    ScreenshotResult :=
  createSuccessResult frame p (outputPath ++ ".json")

/-- Dispatch of `renderer.renderFrame` to the renderer `initializeRenderer`
chose.  The metadata renderer touches no network and keeps no state. -/
def dispatchRenderFrame (kind : RendererKind) (env : RunEnv) (st : RendererState)
    (p : String) (frame : PenFrame) (out : String) :
    ScreenshotResult × RendererState × Nat :=
  match kind with
  | RendererKind.service => serviceRenderFrame env.submit env.download st p frame out
  | RendererKind.metadata => (metadataRenderFrame p frame out, st, 0)

/-- One row of the per-file frame table in the report
(`FrameCommentData` in `src/types.ts`). -/
structure FrameCommentData where
  id : String
  name : String
  screenshotUrl : Option String := none
  screenshotPath : Option String := none
  error : Option String := none
deriving DecidableEq, Repr

/-- One file's entry in the report (`PenFileCommentData`). -/
structure PenFileCommentData where
  path : String
  status : FileStatus
  frames : List FrameCommentData
deriving DecidableEq, Repr

/-- The frame cap (`src/main.ts:119-122`): a positive `maxFramesPerFile`
truncates the frame list, zero means unlimited. -/
def framesToProcess (cfg : RunConfig) (frames : List PenFrame) : List PenFrame :=
  if 0 < cfg.maxFramesPerFile then frames.take cfg.maxFramesPerFile else frames

/-- The per-frame render loop of `runFullMode` (`src/main.ts:129-145`):
render each frame, record its row, count successes; returns the rows, the
renderer state afterwards, the success count and the submission count. -/
def renderFrames (kind : RendererKind) (env : RunEnv) (cfg : RunConfig)
    (st : RendererState) (p : String) :
    List PenFrame → List FrameCommentData × RendererState × Nat × Nat
  | [] => ([], st, 0, 0)
  | f :: rest =>
    let out := getOutputPath cfg.outputDir p f cfg.imageFormat
    let r := dispatchRenderFrame kind env st p f out
    let entry : FrameCommentData :=
      { id := f.id, name := f.name, screenshotUrl := r.1.imageUrl
      , screenshotPath := if r.1.success then some r.1.screenshotPath else none
      , error := r.1.error }
    let rec' := renderFrames kind env cfg r.2.1 p rest
    (entry :: rec'.1, rec'.2.1,
      (if r.1.success then 1 else 0) + rec'.2.2.1, r.2.2 + rec'.2.2.2)

/-- The error entry `runFullMode` records when processing a file throws
(`src/main.ts:152-165`). -/
def processingErrorEntry (file : PenFile) (msg : String) : PenFileCommentData :=
  { path := file.path, status := file.status
  , frames := [{ id := "error", name := "Processing Error", error := some msg }] }

/-- One iteration of `runFullMode`'s file loop (`src/main.ts:100-166`): a
deleted file is recorded with no frames; otherwise the file is loaded,
its top-level frames extracted and capped, and each frame rendered; any
exception up to that point becomes the file's error entry. -/
def processFile (kind : RendererKind) (env : RunEnv) (cfg : RunConfig)
    (st : RendererState) (file : PenFile) :
    PenFileCommentData × RendererState × Nat × Nat :=
  if file.status = FileStatus.deleted then
    ({ path := file.path, status := file.status, frames := [] }, st, 0, 0)
  else
    match loadPenDocument (env.fileContent file.path) file.path with
    | Except.error msg => (processingErrorEntry file msg, st, 0, 0)
    | Except.ok doc =>
      match getTopLevelFrames doc with
      | Except.error msg => (processingErrorEntry file msg, st, 0, 0)
      | Except.ok frames =>
        let r := renderFrames kind env cfg st file.path (framesToProcess cfg frames)
        ({ path := file.path, status := file.status, frames := r.1 },
          r.2.1, r.2.2.1, r.2.2.2)

/-- `runFullMode`'s whole file loop: fold `processFile` over the changed
files, accumulating report entries, rendered-frame and submission counts. -/
def processFiles (kind : RendererKind) (env : RunEnv) (cfg : RunConfig)
    (st : RendererState) :
    List PenFile → List PenFileCommentData × RendererState × Nat × Nat
  | [] => ([], st, 0, 0)
  | file :: rest =>
    let r := processFile kind env cfg st file
    let rec' := processFiles kind env cfg r.2.1 rest
    (r.1 :: rec'.1, rec'.2.1, r.2.2.1 + rec'.2.2.1, r.2.2.2 + rec'.2.2.2)

/-- Modelled from the spec: `buildComment` lives in `comment-builder.ts`,
which is not under `src/`.  Per the spec (§4.4) the report body embeds the
marker as an invisible token; its visible text is presentation-only. -/
def buildCommentBody (marker : String) (_results : List PenFileCommentData) :
    String :=
  marker ++ " design review report"

/-- Modelled from the spec: `buildNoChangesComment` (also in the missing
`comment-builder.ts`) — the "no changes" report body, marker included. -/
def noChangesBody (marker : String) : String :=
  marker ++ " no design files changed"

/-- Action outputs (`setOutputs`, `src/main.ts:392-405`). -/
structure Outputs where
  screenshotsPath : String
  changedFiles : List String
  framesRendered : Nat
deriving DecidableEq, Repr

/-- Everything observable about one orchestrator run: the comments state
after publishing, the bodies passed to `postComment`, the action outputs,
whether a renderer was initialized, and how many render jobs were
submitted. -/
structure RunOutcome where
  comments : CommentsState
  postCalls : List String
  outputs : Outputs
  rendererInitialized : Bool
  submissions : Nat
deriving DecidableEq, Repr

/-- `runFullMode` (`src/main.ts:84-210`): initialize the renderer, process
every changed file, publish the report unless comment mode is `none`, set
the outputs.  Artifact upload has no observable effect in this model. -/
def runFullMode (cfg : RunConfig) (env : RunEnv) (cst : CommentsState)
    (files : List PenFile) : List PenFileCommentData × RunOutcome :=
  let kind := chooseRenderer cfg
  let r := processFiles kind env cfg initialRendererState files
  let published :=
    if cfg.commentMode = CommentMode.none then (cst, ([] : List String))
    else
      let body := buildCommentBody cfg.marker r.1
      ((postComment env.listOk cfg.marker cst cfg.commentMode body).state, [body])
  (r.1,
    { comments := published.1
    , postCalls := published.2
    , outputs :=
      { screenshotsPath := cfg.outputDir
      , changedFiles := files.map PenFile.path
      , framesRendered := r.2.2.1 }
    , rendererInitialized := true
    , submissions := r.2.2.2 })

/-- One file's entry in the diff-mode report (`DiffFileCommentData`). -/
structure DiffFileCommentData where
  path : String
  status : FileStatus
  frames : Option (List FrameCommentData) := none
  diff : Option DiffSummary := none
  error : Option String := none
deriving DecidableEq, Repr

/-- `renderFullFile` (`src/main.ts:319-343`) as used by diff mode for added
files: load, extract, cap, render; exceptions propagate to the caller. -/
def renderFullFileD (kind : RendererKind) (env : RunEnv) (cfg : RunConfig)
    (st : RendererState) (p : String) :
    Except String (List FrameCommentData) × RendererState × Nat :=
  match loadPenDocument (env.fileContent p) p with
  | Except.error msg => (Except.error msg, st, 0)
  | Except.ok doc =>
    match getTopLevelFrames doc with
    | Except.error msg => (Except.error msg, st, 0)
    | Except.ok frames =>
      let r := renderFrames kind env cfg st p (framesToProcess cfg frames)
      (Except.ok r.1, r.2.1, r.2.2.2)

/-- One iteration of `runDiffMode`'s file loop (`src/main.ts:230-278`).
Returns the optional report entry, the renderer state, the frames-rendered
contribution and the submission count.  The diff endpoint call
(`renderer.fetchDiff`) is not in the repository sources; its response is the
environment's `diffResp`. -/
def processDiffFile (kind : RendererKind) (env : RunEnv) (cfg : RunConfig)
    (st : RendererState) (file : PenFile) :
    Option DiffFileCommentData × RendererState × Nat × Nat :=
  if file.status = FileStatus.deleted then
    (if cfg.includeDeleted then
       some { path := file.path, status := file.status }
     else none, st, 0, 0)
  else if file.status = FileStatus.modified ∨ file.status = FileStatus.renamed then
    match env.baseContent (file.previousPath.getD file.path) with
    | none =>
      match renderFullFileD kind env cfg st file.path with
      | (Except.ok entries, st', n) =>
        (some { path := file.path, status := FileStatus.added, frames := some entries },
          st', (entries.filter (fun e => e.error.isNone)).length, n)
      | (Except.error msg, st', n) =>
        (some { path := file.path, status := file.status, error := some msg }, st', 0, n)
    | some _ =>
      match env.diffResp file.path with
      | Except.ok summary =>
        (some { path := file.path, status := file.status, diff := some summary },
          st, summary.added + summary.modified * 2, 1)
      | Except.error msg =>
        (some { path := file.path, status := file.status, error := some msg }, st, 0, 1)
  else
    match renderFullFileD kind env cfg st file.path with
    | (Except.ok entries, st', n) =>
      (some { path := file.path, status := file.status, frames := some entries },
        st', (entries.filter (fun e => e.error.isNone)).length, n)
    | (Except.error msg, st', n) =>
      (some { path := file.path, status := file.status, error := some msg }, st', 0, n)

/-- `runDiffMode`'s file loop. -/
def processDiffFiles (kind : RendererKind) (env : RunEnv) (cfg : RunConfig)
    (st : RendererState) :
    List PenFile → List DiffFileCommentData × RendererState × Nat × Nat
  | [] => ([], st, 0, 0)
  | file :: rest =>
    let r := processDiffFile kind env cfg st file
    let rec' := processDiffFiles kind env cfg r.2.1 rest
    ((r.1.toList ++ rec'.1), rec'.2.1, r.2.2.1 + rec'.2.2.1, r.2.2.2 + rec'.2.2.2)

/-- Modelled from the spec: `buildDiffComment` (missing `comment-builder.ts`)
— the diff report body, marker included. -/
def buildDiffBody (marker : String) (_results : List DiffFileCommentData) :
    String :=
  marker ++ " design diff report"

/-- `runDiffMode` (`src/main.ts:216-313`). -/
def runDiffMode (cfg : RunConfig) (env : RunEnv) (cst : CommentsState)
    (files : List PenFile) : RunOutcome :=
  let kind := chooseRenderer cfg
  let r := processDiffFiles kind env cfg initialRendererState files
  let published :=
    if cfg.commentMode = CommentMode.none then (cst, ([] : List String))
    else
      let body := buildDiffBody cfg.marker r.1
      ((postComment env.listOk cfg.marker cst cfg.commentMode body).state, [body])
  { comments := published.1
  , postCalls := published.2
  , outputs :=
    { screenshotsPath := cfg.outputDir
    , changedFiles := files.map PenFile.path
    , framesRendered := r.2.2.1 }
  , rendererInitialized := true
  , submissions := r.2.2.2 }

/-- `run` (`src/main.ts:22-79`), from the point where inputs are validated
and the changed `.pen` files are known: with no changed files, publish the
"no changes" report (unless comment mode is `none`), set empty outputs and
return — no renderer is constructed and no render job submitted; otherwise
dispatch to diff mode (service renderer only) or full mode. -/
def run (cfg : RunConfig) (env : RunEnv) (cst : CommentsState)
    (changedFiles : List PenFile) : RunOutcome :=
  if changedFiles.isEmpty then
    let published :=
      if cfg.commentMode = CommentMode.none then (cst, ([] : List String))
      else
        let body := noChangesBody cfg.marker
        ((postComment env.listOk cfg.marker cst cfg.commentMode body).state, [body])
    { comments := published.1
    , postCalls := published.2
    , outputs := { screenshotsPath := "", changedFiles := [], framesRendered := 0 }
    , rendererInitialized := false
    , submissions := 0 }
  else if cfg.reviewMode = ReviewMode.diff ∧ cfg.renderer = RendererType.service then
    runDiffMode cfg env cst changedFiles
  else
    (runFullMode cfg env cst changedFiles).2

/-! ## Concrete fixtures used by instantiations -/

/-- A one-frame `.pen` document. -/
def wDoc : Json :=
  Json.obj [("children", Json.arr [Json.obj
    [("type", Json.str "frame"), ("id", Json.str "f1"), ("name", Json.str "Home")]])]

/-- The frame the parser extracts from `wDoc`. -/
def wFrame : PenFrame := { id := "f1", name := "Home", type := "frame" }

/-- The screenshot the service returns for that frame. -/
def wShot : ServiceScreenshot :=
  { frameId := "f1", frameName := "Home", width := 100, height := 100
  , format := "webp", scale := 2, imageUrl := "https://img/f1" }

/-- A job result carrying one screenshot for that frame. -/
def wResp : ServiceResponse :=
  { success := true, screenshots := [wShot] }

/-- A service-renderer run configuration with no frame cap. -/
def wCfg : RunConfig :=
  { renderer := RendererType.service, serviceUrl := some "https://svc"
  , reviewMode := ReviewMode.full, commentMode := CommentMode.update
  , maxFramesPerFile := 0, includeDeleted := false, outputDir := "out"
  , imageFormat := "webp", marker := "<m>" }

/-- An environment in which `bad.pen` hits a terminal job failure while
every other file submits successfully. -/
def wEnv : RunEnv :=
  { fileContent := fun _ => FileContent.doc wDoc
  , submit := fun p => if p = "bad.pen" then SubmitOutcome.jobFailed "job1" none
      else SubmitOutcome.ok wResp
  , download := fun _ => Except.ok ()
  , listOk := true
  , baseContent := fun _ => none
  , diffResp := fun _ => Except.error "diff endpoint unavailable" }

/-- The failing and the healthy changed file of the fixture run. -/
def wFileBad : PenFile := { path := "bad.pen", status := FileStatus.modified }

/-- See `wFileBad`. -/
def wFileGood : PenFile := { path := "good.pen", status := FileStatus.added }

/-! ## Theorems -/

/-- The paginated search visits the comments in order and is equivalent to a
single pass over the full ascending list. -/
theorem findFrom_eq_find? (marker : String) (cs : List Comment) :
    findFrom marker cs = (cs.find? (matchesMarker marker)).map Comment.id := by
  induction cs using findFrom.induct marker with
  | case1 cs c hfind =>
    rw [findFrom, hfind]
    have : cs.find? (matchesMarker marker) = some c := by
      have := @List.find?_append _ (matchesMarker marker) (cs.take 100) (cs.drop 100)
      rw [List.take_append_drop] at this
      rw [this, hfind, Option.or]
    rw [this, Option.map_some']
  | case2 cs hfind hlen =>
    rw [findFrom, hfind, dif_pos hlen]
    have hcs : cs.take 100 = cs := by
      apply List.take_of_length_le
      simp only [List.length_take] at hlen
      omega
    rw [hcs] at hfind
    rw [hfind, Option.map_none']
  | case3 cs hfind hlen ih =>
    rw [findFrom, hfind, dif_neg hlen, ih]
    have := @List.find?_append _ (matchesMarker marker) (cs.take 100) (cs.drop 100)
    rw [List.take_append_drop] at this
    rw [this, hfind, Option.none_or]

/-- Closed form of an `update`-mode publish with working listing. -/
theorem postComment_update (marker : String) (st : CommentsState) (body : String) :
    postComment true marker st CommentMode.update body
      = match st.comments.find? (matchesMarker marker) with
        | some c =>
          { commentId := some c.id
          , state := { st with comments := updateComment st.comments c.id body }
          , searched := true }
        | none =>
          { commentId := some st.nextId, state := createComment st body
          , searched := true } := by
  unfold postComment findExistingComment
  rw [if_pos rfl, findFrom_eq_find?]
  cases st.comments.find? (matchesMarker marker) with
  | none => rfl
  | some c => rfl

/-- C5: `postComment` dispatches exactly per its configured mode: mode
`none` publishes nothing and returns no comment id; mode `create` posts a
new comment without searching; mode `update` searches the existing comments
in ascending creation order, paginating until exhausted or a match is found,
treats a missing body as no match, edits the first matching comment in place
when one exists, and posts a new comment when no match is found — i.e.
`postComment` coincides with the spec-side `postCommentSpec`. -/
theorem c5_postComment_mode_dispatch (marker : String) (st : CommentsState)
    (mode : CommentMode) (body : String) :
    postComment true marker st mode body = postCommentSpec marker st mode body := by
  cases mode with
  | none => rfl
  | create => rfl
  | update =>
    rw [postComment_update]
    unfold postCommentSpec
    cases st.comments.find? (matchesMarker marker) with
    | none => rfl
    | some c => rfl

/-- C10: when the comment-listing request errors, `findExistingComment`
catches the failure and reports "no existing comment", so an `update`-mode
publish creates a new comment instead of propagating; concretely, a run
whose listing fails against a change request that already carries a marked
comment leaves two live marked comments behind. -/
theorem c10_listing_error_creates_new :
    (∀ (marker : String) (cs : List Comment),
      findExistingComment false marker cs = none)
    ∧ (∀ (marker : String) (st : CommentsState) (body : String),
      postComment false marker st CommentMode.update body
        = { commentId := some st.nextId, state := createComment st body
          , searched := true })
    ∧ countMarked "<pencil-marker>"
        (postComment false "<pencil-marker>"
          { comments := [{ id := 1, body := some "report <pencil-marker> v1" }]
          , nextId := 5 }
          CommentMode.update "report <pencil-marker> v2").state.comments = 2 := by
  refine ⟨fun marker cs => rfl, fun marker st body => rfl, ?_⟩
  decide

/-- Editing a comment id absent from a list leaves the list unchanged. -/
theorem updateComment_of_fresh (cs : List Comment) (cid : Nat) (body : String)
    (h : ∀ c ∈ cs, c.id < cid) : updateComment cs cid body = cs := by
  induction cs with
  | nil => rfl
  | cons c t ih =>
    have hc := h c (by simp)
    have ht : ∀ x ∈ t, x.id < cid := fun x hx => h x (by simp [hx])
    simp only [updateComment, List.map_cons]
    rw [if_neg (by simp; omega)]
    have := ih ht
    simp only [updateComment] at this
    rw [this]

/-- C4: under comment mode `update`, publishing twice with the same marker
against the same change request converges to one live marked comment: the
first call creates it, the second call finds it via the marker embedded in
its body, edits it in place and returns the same id, and afterwards exactly
one live comment contains the marker with the total count grown by one. -/
theorem c4_update_idempotent (st : CommentsState) (marker b1 b2 : String)
    (hfresh : ∀ c ∈ st.comments, c.id < st.nextId)
    (hnone : countMarked marker st.comments = 0)
    (h1 : containsStr b1 marker = true)
    (h2 : containsStr b2 marker = true) :
    (postComment true marker st CommentMode.update b1).commentId = some st.nextId
    ∧ (postComment true marker
        (postComment true marker st CommentMode.update b1).state
        CommentMode.update b2).commentId = some st.nextId
    ∧ countMarked marker (postComment true marker
        (postComment true marker st CommentMode.update b1).state
        CommentMode.update b2).state.comments = 1
    ∧ (postComment true marker
        (postComment true marker st CommentMode.update b1).state
        CommentMode.update b2).state.comments.length
      = st.comments.length + 1 := by
  have hnomatch : ∀ c ∈ st.comments, ¬ matchesMarker marker c = true := by
    intro c hc
    exact (List.countP_eq_zero.mp hnone) c hc
  have hfind1 : st.comments.find? (matchesMarker marker) = none :=
    List.find?_eq_none.mpr hnomatch
  have hr1 : postComment true marker st CommentMode.update b1
      = { commentId := some st.nextId, state := createComment st b1
        , searched := true } := by
    rw [postComment_update, hfind1]
  have hnew : matchesMarker marker { id := st.nextId, body := some b1 } = true := by
    simp [matchesMarker, h1]
  have hfind2 : (createComment st b1).comments.find? (matchesMarker marker)
      = some { id := st.nextId, body := some b1 } := by
    show (st.comments ++ [({ id := st.nextId, body := some b1 } : Comment)]).find? _ = _
    rw [List.find?_append, hfind1, Option.none_or]
    exact List.find?_cons_of_pos _ hnew
  have hupd : updateComment (createComment st b1).comments st.nextId b2
      = st.comments ++ [{ id := st.nextId, body := some b2 }] := by
    show updateComment (st.comments ++ [{ id := st.nextId, body := some b1 }])
      st.nextId b2 = _
    unfold updateComment
    rw [List.map_append]
    have hl := updateComment_of_fresh st.comments st.nextId b2 hfresh
    unfold updateComment at hl
    rw [hl]
    simp
  have hr2 : postComment true marker (createComment st b1) CommentMode.update b2
      = { commentId := some st.nextId
        , state :=
          { comments := st.comments ++ [{ id := st.nextId, body := some b2 }]
          , nextId := st.nextId + 1 }
        , searched := true } := by
    rw [postComment_update, hfind2]
    show ({ commentId := some st.nextId
          , state := { createComment st b1 with
              comments := updateComment (createComment st b1).comments st.nextId b2 }
          , searched := true } : PostResult) = _
    rw [hupd]
    rfl
  refine ⟨by rw [hr1], ?_, ?_, ?_⟩
  · rw [hr1]
    show (postComment true marker (createComment st b1)
      CommentMode.update b2).commentId = some st.nextId
    rw [hr2]
  · rw [hr1]
    show countMarked marker (postComment true marker (createComment st b1)
      CommentMode.update b2).state.comments = 1
    rw [hr2]
    show countMarked marker
      (st.comments ++ [{ id := st.nextId, body := some b2 }]) = 1
    unfold countMarked
    rw [List.countP_append]
    have : countMarked marker st.comments = 0 := hnone
    unfold countMarked at this
    rw [this]
    simp [List.countP, List.countP.go, matchesMarker, h2]
  · rw [hr1]
    show (postComment true marker (createComment st b1)
      CommentMode.update b2).state.comments.length = st.comments.length + 1
    rw [hr2]
    simp

/-- Concrete instantiation of the idempotent-publish theorem: a change
request with one unmarked comment, marker `<!-- pencil -->`, two report
bodies embedding it. -/
theorem c4_update_idempotent_witness :
    (postComment true "<pencil>"
      { comments := [{ id := 0, body := some "hello" }], nextId := 7 }
      CommentMode.update "r1 <pencil>").commentId = some 7
    ∧ (postComment true "<pencil>"
        (postComment true "<pencil>"
          { comments := [{ id := 0, body := some "hello" }], nextId := 7 }
          CommentMode.update "r1 <pencil>").state
        CommentMode.update "r2 <pencil>").commentId = some 7
    ∧ countMarked "<pencil>" (postComment true "<pencil>"
        (postComment true "<pencil>"
          { comments := [{ id := 0, body := some "hello" }], nextId := 7 }
          CommentMode.update "r1 <pencil>").state
        CommentMode.update "r2 <pencil>").state.comments = 1
    ∧ (postComment true "<pencil>"
        (postComment true "<pencil>"
          { comments := [{ id := 0, body := some "hello" }], nextId := 7 }
          CommentMode.update "r1 <pencil>").state
        CommentMode.update "r2 <pencil>").state.comments.length
      = 1 + 1 :=
  c4_update_idempotent
    { comments := [{ id := 0, body := some "hello" }], nextId := 7 }
    "<pencil>" "r1 <pencil>" "r2 <pencil>"
    (by decide) (by decide) (by decide) (by decide)

/-- A file already marked sent is served from the cache: no fetch, no state
change, no submission. -/
theorem renderFrame_of_sent (submit : String → SubmitOutcome)
    (dl : String → Except Nat Unit) (st : RendererState) (p : String)
    (frame : PenFrame) (out : String) (h : st.sentFiles.contains p = true) :
    serviceRenderFrame submit dl st p frame out
      = (serveFromCache dl st p frame out, st, 0) := by
  unfold serviceRenderFrame
  rw [h]
  rfl

/-- Closed form of a first call for a file: the file is marked sent before
anything else, one job is submitted, and the cache is extended only on
success. -/
theorem renderFrame_not_sent (submit : String → SubmitOutcome)
    (dl : String → Except Nat Unit) (st : RendererState) (p : String)
    (frame : PenFrame) (out : String) (h : st.sentFiles.contains p = false) :
    serviceRenderFrame submit dl st p frame out
      = match submit p with
        | SubmitOutcome.ok resp =>
          (serveFromCache dl
            { cache := (p, buildFrameMap resp.screenshots) :: st.cache
            , sentFiles := p :: st.sentFiles } p frame out,
            { cache := (p, buildFrameMap resp.screenshots) :: st.cache
            , sentFiles := p :: st.sentFiles }, 1)
        | o =>
          (createErrorResult frame p (submitFailureMsg o),
            { st with sentFiles := p :: st.sentFiles }, 1) := by
  unfold serviceRenderFrame fetchAllFrames
  rw [h]
  cases submit p <;> rfl

/-- Cache lookup at the freshly-written key. -/
theorem cacheGet_cons_self (c : List (String × List (String × CachedFrame)))
    (p : String) (m : List (String × CachedFrame)) :
    cacheGet ((p, m) :: c) p = some m := by
  simp [cacheGet]

/-- A first call for a file marks it sent and issues exactly one submission,
whatever the service answers. -/
theorem renderFrame_first_call (submit : String → SubmitOutcome)
    (dl : String → Except Nat Unit) (st : RendererState) (p : String)
    (frame : PenFrame) (out : String) (h : st.sentFiles.contains p = false) :
    (serviceRenderFrame submit dl st p frame out).2.1.sentFiles.contains p = true
    ∧ (serviceRenderFrame submit dl st p frame out).2.2 = 1 := by
  rw [renderFrame_not_sent submit dl st p frame out h]
  cases submit p <;> simp

/-- `renderFrame` never removes a file from the sent set. -/
theorem renderFrame_sent_mono (submit : String → SubmitOutcome)
    (dl : String → Except Nat Unit) (st : RendererState) (q p : String)
    (frame : PenFrame) (out : String) (h : st.sentFiles.contains q = true) :
    (serviceRenderFrame submit dl st p frame out).2.1.sentFiles.contains q = true := by
  have hm : q ∈ st.sentFiles := by simpa using h
  cases hp : st.sentFiles.contains p with
  | true => rw [renderFrame_of_sent submit dl st p frame out hp]; simpa using h
  | false =>
    rw [renderFrame_not_sent submit dl st p frame out hp]
    cases submit p <;> simp [hm]

/-- A call for a different file never marks this one sent. -/
theorem renderFrame_other_preserves (submit : String → SubmitOutcome)
    (dl : String → Except Nat Unit) (st : RendererState) (q p : String)
    (frame : PenFrame) (out : String) (hne : q ≠ p)
    (h : st.sentFiles.contains p = false) :
    (serviceRenderFrame submit dl st q frame out).2.1.sentFiles.contains p = false := by
  have hm : p ∉ st.sentFiles := by simpa using h
  cases hq : st.sentFiles.contains q with
  | true => rw [renderFrame_of_sent submit dl st q frame out hq]; simpa using h
  | false =>
    rw [renderFrame_not_sent submit dl st q frame out hq]
    cases submit q <;> simp [hm, Ne.symm hne]

/-- Once a file is marked sent, an arbitrary tail of calls issues no
further submission for it. -/
theorem subsForPath_of_sent (submit : String → SubmitOutcome)
    (dl : String → Except Nat Unit) (p : String) :
    ∀ (calls : List RenderCall) (st : RendererState),
      st.sentFiles.contains p = true → subsForPath submit dl p st calls = 0 := by
  intro calls
  induction calls with
  | nil => intro st _; rfl
  | cons c rest ih =>
    intro st h
    simp only [subsForPath]
    by_cases hc : c.path = p
    · subst hc
      rw [renderFrame_of_sent submit dl st c.path c.frame c.out h]
      simp [ih st h]
    · rw [if_neg hc,
        ih _ (renderFrame_sent_mono submit dl st p c.path c.frame c.out h)]

/-- C1: within one run, any sequence of `renderFrame` calls — frames of the
target file freely interleaved with frames of other files — sends exactly
one screenshot-job submission for that file when at least one of its frames
is requested (and none otherwise): the first call for the file submits and
marks it sent, and every call for an already-sent file is answered from the
per-frame cache, unchanged state, with no additional submission. -/
theorem c1_cache_single_submission (submit : String → SubmitOutcome)
    (dl : String → Except Nat Unit) (p : String) (st0 : RendererState)
    (calls : List RenderCall) (h0 : st0.sentFiles.contains p = false) :
    subsForPath submit dl p st0 calls
      = (if calls.any (fun c => c.path == p) then 1 else 0)
    ∧ (∀ (st : RendererState) (frame : PenFrame) (out : String),
        st.sentFiles.contains p = true →
        serviceRenderFrame submit dl st p frame out
          = (serveFromCache dl st p frame out, st, 0))
    ∧ (∀ (st : RendererState) (frame : PenFrame) (out : String)
        (resp : ServiceResponse),
        st.sentFiles.contains p = false → submit p = SubmitOutcome.ok resp →
        cacheGet (serviceRenderFrame submit dl st p frame out).2.1.cache p
          = some (buildFrameMap resp.screenshots)) := by
  refine ⟨?_, fun st frame out h => renderFrame_of_sent submit dl st p frame out h,
    ?_⟩
  case refine_2 =>
    intro st frame out resp hns hsub
    have heq := renderFrame_not_sent submit dl st p frame out hns
    rw [hsub] at heq
    rw [heq]
    exact cacheGet_cons_self st.cache p _
  induction calls generalizing st0 with
  | nil => simp [subsForPath]
  | cons c rest ih =>
    simp only [subsForPath]
    by_cases hc : c.path = p
    · subst hc
      have hfirst := renderFrame_first_call submit dl st0 c.path c.frame c.out h0
      rw [if_pos rfl, hfirst.2,
        subsForPath_of_sent submit dl c.path rest _ hfirst.1]
      simp
    · rw [if_neg hc,
        ih _ (renderFrame_other_preserves submit dl st0 c.path p c.frame c.out hc h0)]
      have hb : (c.path == p) = false := by
        simp only [beq_eq_false_iff_ne, ne_eq]
        exact hc
      simp [List.any_cons, hb]

/-- Concrete instantiation of the single-submission theorem: three calls
(two frames of `a.pen` around one frame of `b.pen`) from a fresh renderer. -/
theorem c1_cache_single_submission_witness :
    subsForPath (fun _ => SubmitOutcome.ok { success := true, screenshots := [] })
      (fun _ => Except.ok ()) "a.pen" initialRendererState
      [ { path := "a.pen", frame := { id := "f1", name := "F1", type := "frame" }
        , out := "o1" }
      , { path := "b.pen", frame := { id := "g1", name := "G1", type := "frame" }
        , out := "o2" }
      , { path := "a.pen", frame := { id := "f2", name := "F2", type := "frame" }
        , out := "o3" } ]
      = 1 :=
  by
    have h := c1_cache_single_submission
      (fun _ => SubmitOutcome.ok { success := true, screenshots := [] })
      (fun _ => Except.ok ()) "a.pen" initialRendererState
      [ { path := "a.pen", frame := { id := "f1", name := "F1", type := "frame" }
        , out := "o1" }
      , { path := "b.pen", frame := { id := "g1", name := "G1", type := "frame" }
        , out := "o2" }
      , { path := "a.pen", frame := { id := "f2", name := "F2", type := "frame" }
        , out := "o3" } ]
      (by decide)
    rw [h.1]
    decide

/-- C9: `ServiceRenderer` adds a file to `sentFiles` before issuing its
submission and nothing but `cleanup` ever removes it; hence a submission
that throws is never retried — the failing first call still marks the file
sent, leaves the cache without an entry and issues its one submission, and
every later `renderFrame` call for that file returns the per-frame
`not found in API response` error with no new submission and no state
change. -/
theorem c9_sent_marking_no_retry (submit : String → SubmitOutcome)
    (dl : String → Except Nat Unit) (st : RendererState) (p : String)
    (frame : PenFrame) (out : String) :
    (st.sentFiles.contains p = false → isSubmitFailure (submit p) = true →
      (serviceRenderFrame submit dl st p frame out).2.1.sentFiles.contains p = true
      ∧ (serviceRenderFrame submit dl st p frame out).1.success = false
      ∧ (serviceRenderFrame submit dl st p frame out).2.1.cache = st.cache
      ∧ (serviceRenderFrame submit dl st p frame out).2.2 = 1)
    ∧ (st.sentFiles.contains p = true → cacheGet st.cache p = none →
      serviceRenderFrame submit dl st p frame out
        = (createErrorResult frame p
            ("Frame " ++ frame.id ++ " not found in API response"), st, 0))
    ∧ (∀ (q : String), st.sentFiles.contains q = true →
      (serviceRenderFrame submit dl st p frame out).2.1.sentFiles.contains q = true)
    ∧ cleanupRenderer st = initialRendererState := by
  refine ⟨?_, ?_, ?_, rfl⟩
  · intro h hfail
    rw [renderFrame_not_sent submit dl st p frame out h]
    cases hs : submit p with
    | ok resp => rw [hs] at hfail; simp [isSubmitFailure] at hfail
    | httpError a b => simp [createErrorResult]
    | pollHttpError a b => simp [createErrorResult]
    | jobFailed a b => simp [createErrorResult]
    | noResult a => simp [createErrorResult]
    | jobTimeout a b => simp [createErrorResult]
  · intro h hcache
    rw [renderFrame_of_sent submit dl st p frame out h]
    unfold serveFromCache
    rw [hcache]
    rfl
  · intro q hq
    exact renderFrame_sent_mono submit dl st q p frame out hq

/-- Concrete instantiation of the no-retry theorem: a submission rejected
with HTTP 503 on a fresh renderer, then a second call on the resulting
state. -/
theorem c9_sent_marking_no_retry_witness :
    ((serviceRenderFrame (fun _ => SubmitOutcome.httpError 503 "overloaded")
        (fun _ => Except.ok ()) initialRendererState "a.pen"
        { id := "f1", name := "F1", type := "frame" }
        "o1").2.1.sentFiles.contains "a.pen" = true
      ∧ (serviceRenderFrame (fun _ => SubmitOutcome.httpError 503 "overloaded")
          (fun _ => Except.ok ()) initialRendererState "a.pen"
          { id := "f1", name := "F1", type := "frame" } "o1").1.success = false
      ∧ (serviceRenderFrame (fun _ => SubmitOutcome.httpError 503 "overloaded")
          (fun _ => Except.ok ()) initialRendererState "a.pen"
          { id := "f1", name := "F1", type := "frame" } "o1").2.1.cache
        = initialRendererState.cache
      ∧ (serviceRenderFrame (fun _ => SubmitOutcome.httpError 503 "overloaded")
          (fun _ => Except.ok ()) initialRendererState "a.pen"
          { id := "f1", name := "F1", type := "frame" } "o1").2.2 = 1)
    ∧ serviceRenderFrame (fun _ => SubmitOutcome.httpError 503 "overloaded")
        (fun _ => Except.ok ()) { cache := [], sentFiles := ["a.pen"] } "a.pen"
        { id := "f1", name := "F1", type := "frame" } "o1"
      = (createErrorResult { id := "f1", name := "F1", type := "frame" }
          "a.pen" "Frame f1 not found in API response",
          { cache := [], sentFiles := ["a.pen"] }, 0) :=
  ⟨(c9_sent_marking_no_retry (fun _ => SubmitOutcome.httpError 503 "overloaded")
      (fun _ => Except.ok ()) initialRendererState "a.pen"
      { id := "f1", name := "F1", type := "frame" } "o1").1 (by decide) (by decide),
    (c9_sent_marking_no_retry (fun _ => SubmitOutcome.httpError 503 "overloaded")
      (fun _ => Except.ok ()) { cache := [], sentFiles := ["a.pen"] } "a.pen"
      { id := "f1", name := "F1", type := "frame" } "o1").2.1 (by decide) rfl⟩

/-- Unfolding one non-terminal, in-budget iteration of the poll loop. -/
theorem pollForCompletion_step (responses : Nat → PollResp) (fuel k elapsed interval : Nat)
    (h1 : ¬ pollTimeoutMs < elapsed) (h2 : isNonTerminal (responses k)) :
    pollForCompletion responses (fuel + 1) k elapsed interval
      = pollForCompletion responses fuel (k + 1) (elapsed + interval)
          (nextInterval interval) := by
  conv_lhs => unfold pollForCompletion
  rw [if_neg h1]
  cases hr : responses k with
  | httpError s => rw [hr] at h2; simp [isNonTerminal] at h2
  | ok s =>
    cases s with
    | queued pos => rfl
    | processing pos => rfl
    | completed r => rw [hr] at h2; cases r <;> simp [isNonTerminal] at h2
    | failed e => rw [hr] at h2; simp [isNonTerminal] at h2

/-- If the schedule stays non-terminal for `N` polls, the budget holds at
every check on the way, and the `N`-th poll reports completion with a
result, the loop returns that result after exactly `N + 1` polls. -/
theorem pollForCompletion_completes (responses : Nat → PollResp) (r : ServiceResponse) :
    ∀ (N k elapsed interval fuel : Nat),
      (∀ j, j < N → isNonTerminal (responses (k + j))) →
      (∀ j, j ≤ N → (stepEI^[j] (elapsed, interval)).1 ≤ pollTimeoutMs) →
      responses (k + N) = PollResp.ok (JobStatusR.completed (some r)) →
      N < fuel →
      pollForCompletion responses fuel k elapsed interval = (Except.ok r, k + 1 + N) := by
  intro N
  induction N with
  | zero =>
    intro k elapsed interval fuel _ hbud hdone hfuel
    obtain ⟨f, rfl⟩ : ∃ f, fuel = f + 1 := ⟨fuel - 1, by omega⟩
    unfold pollForCompletion
    rw [if_neg (by have := hbud 0 (by omega); simpa using this)]
    rw [show k + 0 = k from rfl] at hdone
    rw [hdone]
  | succ N ih =>
    intro k elapsed interval fuel hnt hbud hdone hfuel
    obtain ⟨f, rfl⟩ : ∃ f, fuel = f + 1 := ⟨fuel - 1, by omega⟩
    rw [pollForCompletion_step responses f k elapsed interval
      (by have := hbud 0 (by omega); simpa using this)
      (by have := hnt 0 (by omega); simpa using this)]
    have := ih (k + 1) (elapsed + interval) (nextInterval interval) f
      (fun j hj => by
        have := hnt (j + 1) (by omega)
        rwa [show k + (j + 1) = k + 1 + j by omega] at this)
      (fun j hj => by
        have := hbud (j + 1) (by omega)
        rwa [Function.iterate_succ_apply, show stepEI (elapsed, interval)
          = (elapsed + interval, nextInterval interval) from rfl] at this)
      (by rwa [show k + (N + 1) = k + 1 + N by omega] at hdone)
      (by omega)
    rw [this, show k + 1 + 1 + N = k + 1 + (N + 1) by omega]

/-- If the schedule stays non-terminal while the budget holds, the loop
raises the timeout error at the first check whose elapsed time exceeds the
budget, after exactly `n` polls. -/
theorem pollForCompletion_times_out (responses : Nat → PollResp) :
    ∀ (n k elapsed interval fuel : Nat),
      (∀ j, j < n → isNonTerminal (responses (k + j))) →
      (∀ j, j < n → (stepEI^[j] (elapsed, interval)).1 ≤ pollTimeoutMs) →
      pollTimeoutMs < (stepEI^[n] (elapsed, interval)).1 →
      n < fuel →
      pollForCompletion responses fuel k elapsed interval
        = (Except.error PollError.timeout, k + n) := by
  intro n
  induction n with
  | zero =>
    intro k elapsed interval fuel _ _ hover hfuel
    obtain ⟨f, rfl⟩ : ∃ f, fuel = f + 1 := ⟨fuel - 1, by omega⟩
    unfold pollForCompletion
    rw [if_pos (by simpa using hover)]
    simp
  | succ n ih =>
    intro k elapsed interval fuel hnt hbud hover hfuel
    obtain ⟨f, rfl⟩ : ∃ f, fuel = f + 1 := ⟨fuel - 1, by omega⟩
    rw [pollForCompletion_step responses f k elapsed interval
      (by have := hbud 0 (by omega); simpa using this)
      (by have := hnt 0 (by omega); simpa using this)]
    have := ih (k + 1) (elapsed + interval) (nextInterval interval) f
      (fun j hj => by
        have := hnt (j + 1) (by omega)
        rwa [show k + (j + 1) = k + 1 + j by omega] at this)
      (fun j hj => by
        have := hbud (j + 1) (by omega)
        rwa [Function.iterate_succ_apply, show stepEI (elapsed, interval)
          = (elapsed + interval, nextInterval interval) from rfl] at this)
      (by
        rwa [Function.iterate_succ_apply, show stepEI (elapsed, interval)
          = (elapsed + interval, nextInterval interval) from rfl] at hover)
      (by omega)
    rw [this, show k + 1 + n = k + (n + 1) by omega]

/-- C2: the poll loop terminates.  First conjunct: when the N-th poll
reports `completed` with a result (all earlier polls non-terminal, budget
not yet exceeded at any check), the loop returns that result payload after
exactly N+1 poll requests — no further polls are issued.  Second conjunct:
a job stuck below terminal status makes the loop — whose waits start at
2000 ms, multiply by 1.5 and cap at 15000 ms — raise the timeout error
exactly once, at the first check where total elapsed time exceeds the
600000 ms budget, after exactly n polls. -/
theorem c2_poll_terminates :
    (∀ (responses : Nat → PollResp) (r : ServiceResponse) (N fuel : Nat),
      (∀ j, j < N → isNonTerminal (responses j)) →
      (∀ j, j ≤ N → elapsedAt j ≤ pollTimeoutMs) →
      responses N = PollResp.ok (JobStatusR.completed (some r)) →
      N < fuel →
      pollForCompletion responses fuel 0 0 pollInitialIntervalMs
        = (Except.ok r, N + 1))
    ∧ (∀ (responses : Nat → PollResp) (n fuel : Nat),
      (∀ j, j < n → isNonTerminal (responses j)) →
      (∀ j, j < n → elapsedAt j ≤ pollTimeoutMs) →
      pollTimeoutMs < elapsedAt n →
      n < fuel →
      pollForCompletion responses fuel 0 0 pollInitialIntervalMs
        = (Except.error PollError.timeout, n)) := by
  constructor
  · intro responses r N fuel hnt hbud hdone hfuel
    have := pollForCompletion_completes responses r N 0 0 pollInitialIntervalMs fuel
      (fun j hj => by simpa using hnt j hj)
      (fun j hj => hbud j hj)
      (by simpa using hdone) hfuel
    rwa [show 0 + 1 + N = N + 1 by omega] at this
  · intro responses n fuel hnt hbud hover hfuel
    have := pollForCompletion_times_out responses n 0 0 pollInitialIntervalMs fuel
      (fun j hj => by simpa using hnt j hj)
      (fun j hj => hbud j hj) hover hfuel
    rwa [Nat.zero_add] at this

/-- Concrete instantiations: a job completing on the very first poll returns
its payload with one poll issued; a job that never leaves `processing` hits
the timeout at the 44th check — the first at which the backoff schedule's
elapsed time (611375 ms) exceeds the 600000 ms budget — with 44 polls
issued. -/
theorem c2_poll_terminates_witness :
    pollForCompletion
        (fun _ => PollResp.ok (JobStatusR.completed
          (some { success := true, screenshots := [] })))
        2 0 0 pollInitialIntervalMs
      = (Except.ok { success := true, screenshots := [] }, 1)
    ∧ pollForCompletion (fun _ => PollResp.ok (JobStatusR.processing 0))
        45 0 0 pollInitialIntervalMs
      = (Except.error PollError.timeout, 44) :=
  ⟨c2_poll_terminates.1
      (fun _ => PollResp.ok (JobStatusR.completed
        (some { success := true, screenshots := [] })))
      { success := true, screenshots := [] } 0 2
      (by omega) (by decide) rfl (by omega),
    c2_poll_terminates.2 (fun _ => PollResp.ok (JobStatusR.processing 0)) 44 45
      (by decide) (by decide) (by decide) (by omega)⟩

/-- Occurrences of an id in a filtered-and-projected frame list, as a
`countP` over the original list. -/
theorem count_filter_map_id (l : List SpecFrame) (pr : SpecFrame → Bool) (i : String) :
    ((l.filter pr).map SpecFrame.id).count i
      = l.countP (fun f => f.id == i && pr f) := by
  rw [List.count, List.countP_map, List.countP_filter]
  rfl

/-- For one frame, exactly one of the three head-side classification
indicators (added, modified, unchanged) fires when the frame carries the
id, and none fires otherwise. -/
theorem indicator_split (base : List SpecFrame) (i : String) (f : SpecFrame) :
    (if (f.id == i && (findById base f.id).isNone) = true then 1 else 0)
    + (if (f.id == i &&
          (match findById base f.id with
           | some g => g.fingerprint != f.fingerprint
           | none => false)) = true then 1 else 0)
    + (if (f.id == i &&
          (match findById base f.id with
           | some g => g.fingerprint == f.fingerprint
           | none => false)) = true then 1 else 0)
    = (if (f.id == i) = true then (1 : Nat) else 0) := by
  by_cases hid : (f.id == i) = true
  · cases hb : findById base f.id with
    | none => simp [hid, hb]
    | some g =>
      by_cases hfp : (g.fingerprint == f.fingerprint) = true
      · simp [hid, hb, hfp, bne]
      · have h' : (g.fingerprint == f.fingerprint) = false := by simpa using hfp
        simp [hid, hb, h', bne]
  · have h' : (f.id == i) = false := by simpa using hid
    simp [h']

/-- For each id, the three head-side classification predicates (added,
modified, unchanged) partition the head frames carrying that id. -/
theorem countP_head_split (base : List SpecFrame) (i : String) :
    ∀ (head : List SpecFrame),
      head.countP (fun f => f.id == i && (findById base f.id).isNone)
      + head.countP (fun f => f.id == i &&
          (match findById base f.id with
           | some g => g.fingerprint != f.fingerprint
           | none => false))
      + head.countP (fun f => f.id == i &&
          (match findById base f.id with
           | some g => g.fingerprint == f.fingerprint
           | none => false))
      = head.countP (fun f => f.id == i) := by
  intro head
  induction head with
  | nil => rfl
  | cons f t ih =>
    simp only [List.countP_cons]
    have hsplit := indicator_split base i f
    omega

/-- In a list with nodup ids, the number of frames carrying an id is its
membership indicator. -/
theorem countP_id_indicator (l : List SpecFrame) (i : String)
    (h : (l.map SpecFrame.id).Nodup) :
    l.countP (fun f => f.id == i)
      = if i ∈ l.map SpecFrame.id then 1 else 0 := by
  have hc : (l.map SpecFrame.id).count i = l.countP (fun f => f.id == i) := by
    rw [List.count, List.countP_map]
    rfl
  by_cases hm : i ∈ l.map SpecFrame.id
  · rw [if_pos hm, ← hc]
    exact List.count_eq_one_of_mem h hm
  · rw [if_neg hm, ← hc]
    exact List.count_eq_zero.mpr hm

/-- C6: for every base/head frame-index pair (ids unique within each side),
the four diff lists partition the union of base and head ids — an id in the
union occurs exactly once across `added ++ modified ++ removed ++
unchanged`, and an id outside the union occurs zero times. -/
theorem c6_diff_partition (base head : List SpecFrame)
    (hb : (base.map SpecFrame.id).Nodup) (hh : (head.map SpecFrame.id).Nodup)
    (i : String) :
    ((i ∈ base.map SpecFrame.id ∨ i ∈ head.map SpecFrame.id) →
      (diffFrames base head).added.count i
      + (diffFrames base head).modified.count i
      + (diffFrames base head).removed.count i
      + (diffFrames base head).unchanged.count i = 1)
    ∧ ((i ∉ base.map SpecFrame.id ∧ i ∉ head.map SpecFrame.id) →
      (diffFrames base head).added.count i
      + (diffFrames base head).modified.count i
      + (diffFrames base head).removed.count i
      + (diffFrames base head).unchanged.count i = 0) := by
  have hA : (diffFrames base head).added.count i
      = head.countP (fun f => f.id == i && (findById base f.id).isNone) :=
    count_filter_map_id head _ i
  have hM : (diffFrames base head).modified.count i
      = head.countP (fun f => f.id == i &&
          (match findById base f.id with
           | some g => g.fingerprint != f.fingerprint
           | none => false)) :=
    count_filter_map_id head _ i
  have hU : (diffFrames base head).unchanged.count i
      = head.countP (fun f => f.id == i &&
          (match findById base f.id with
           | some g => g.fingerprint == f.fingerprint
           | none => false)) :=
    count_filter_map_id head _ i
  have hR : (diffFrames base head).removed.count i
      = base.countP (fun f => f.id == i && (findById head f.id).isNone) :=
    count_filter_map_id base _ i
  have hHead := countP_head_split base i head
  have hHeadInd := countP_id_indicator head i hh
  have hBaseInd := countP_id_indicator base i hb
  -- the removed count: 0 when i is a head id, the base indicator otherwise
  have hRcount : base.countP (fun f => f.id == i && (findById head f.id).isNone)
      = if i ∈ head.map SpecFrame.id then 0
        else base.countP (fun f => f.id == i) := by
    by_cases hm : i ∈ head.map SpecFrame.id
    · rw [if_pos hm]
      apply List.countP_eq_zero.mpr
      intro f hf
      simp only [Bool.and_eq_true]
      rintro ⟨hid, hnone⟩
      have hi : f.id = i := by simpa using hid
      rw [Option.isNone_iff_eq_none, hi] at hnone
      obtain ⟨g, hg, hgi⟩ := List.mem_map.mp hm
      have hall := List.find?_eq_none.mp hnone g hg
      exact hall (by simp [hgi])
    · rw [if_neg hm]
      apply List.countP_congr
      intro f hf
      by_cases hid : (f.id == i) = true
      · have hi : f.id = i := by simpa using hid
        have hfind : findById head f.id = none := by
          rw [hi, findById]
          apply List.find?_eq_none.mpr
          intro g hg hgi
          exact hm (List.mem_map.mpr ⟨g, hg, by simpa using hgi⟩)
        simp [hid, hfind]
      · have h' : (f.id == i) = false := by simpa using hid
        simp [h']
  constructor
  · intro hmem
    rw [hA, hM, hR, hU, hRcount]
    by_cases hmh : i ∈ head.map SpecFrame.id
    · rw [if_pos hmh]
      have : head.countP (fun f => f.id == i) = 1 := by rw [hHeadInd, if_pos hmh]
      omega
    · have hmb : i ∈ base.map SpecFrame.id := by
        cases hmem with
        | inl h => exact h
        | inr h => exact absurd h hmh
      rw [if_neg hmh]
      have h1 : head.countP (fun f => f.id == i) = 0 := by
        rw [hHeadInd, if_neg hmh]
      have h2 : base.countP (fun f => f.id == i) = 1 := by
        rw [hBaseInd, if_pos hmb]
      omega
  · intro hni
    rw [hA, hM, hR, hU, hRcount, if_neg hni.2]
    have h1 : head.countP (fun f => f.id == i) = 0 := by
      rw [hHeadInd, if_neg hni.2]
    have h2 : base.countP (fun f => f.id == i) = 0 := by
      rw [hBaseInd, if_neg hni.1]
    omega

/-- Concrete instantiation of the diff partition: the spec's own scenario
base = [A(h1), B(h2)], head = [A(h1), B(h3), C(h4)], checked at id B. -/
theorem c6_diff_partition_witness :
    ((("B" : String) ∈ ([{ id := "A", fingerprint := 1 },
        { id := "B", fingerprint := 2 }] : List SpecFrame).map SpecFrame.id
      ∨ ("B" : String) ∈ ([{ id := "A", fingerprint := 1 },
        { id := "B", fingerprint := 3 },
        { id := "C", fingerprint := 4 }] : List SpecFrame).map SpecFrame.id) →
      (diffFrames [{ id := "A", fingerprint := 1 }, { id := "B", fingerprint := 2 }]
        [{ id := "A", fingerprint := 1 }, { id := "B", fingerprint := 3 },
          { id := "C", fingerprint := 4 }]).added.count "B"
      + (diffFrames [{ id := "A", fingerprint := 1 }, { id := "B", fingerprint := 2 }]
        [{ id := "A", fingerprint := 1 }, { id := "B", fingerprint := 3 },
          { id := "C", fingerprint := 4 }]).modified.count "B"
      + (diffFrames [{ id := "A", fingerprint := 1 }, { id := "B", fingerprint := 2 }]
        [{ id := "A", fingerprint := 1 }, { id := "B", fingerprint := 3 },
          { id := "C", fingerprint := 4 }]).removed.count "B"
      + (diffFrames [{ id := "A", fingerprint := 1 }, { id := "B", fingerprint := 2 }]
        [{ id := "A", fingerprint := 1 }, { id := "B", fingerprint := 3 },
          { id := "C", fingerprint := 4 }]).unchanged.count "B" = 1)
    ∧ ((("B" : String) ∉ ([{ id := "A", fingerprint := 1 },
        { id := "B", fingerprint := 2 }] : List SpecFrame).map SpecFrame.id
      ∧ ("B" : String) ∉ ([{ id := "A", fingerprint := 1 },
        { id := "B", fingerprint := 3 },
        { id := "C", fingerprint := 4 }] : List SpecFrame).map SpecFrame.id) →
      (diffFrames [{ id := "A", fingerprint := 1 }, { id := "B", fingerprint := 2 }]
        [{ id := "A", fingerprint := 1 }, { id := "B", fingerprint := 3 },
          { id := "C", fingerprint := 4 }]).added.count "B"
      + (diffFrames [{ id := "A", fingerprint := 1 }, { id := "B", fingerprint := 2 }]
        [{ id := "A", fingerprint := 1 }, { id := "B", fingerprint := 3 },
          { id := "C", fingerprint := 4 }]).modified.count "B"
      + (diffFrames [{ id := "A", fingerprint := 1 }, { id := "B", fingerprint := 2 }]
        [{ id := "A", fingerprint := 1 }, { id := "B", fingerprint := 3 },
          { id := "C", fingerprint := 4 }]).removed.count "B"
      + (diffFrames [{ id := "A", fingerprint := 1 }, { id := "B", fingerprint := 2 }]
        [{ id := "A", fingerprint := 1 }, { id := "B", fingerprint := 3 },
          { id := "C", fingerprint := 4 }]).unchanged.count "B" = 0) :=
  c6_diff_partition
    [{ id := "A", fingerprint := 1 }, { id := "B", fingerprint := 2 }]
    [{ id := "A", fingerprint := 1 }, { id := "B", fingerprint := 3 },
      { id := "C", fingerprint := 4 }]
    (by decide) (by decide) "B"

/-- Closed form of a first call whose submission throws. -/
theorem renderFrame_failure (submit : String → SubmitOutcome)
    (dl : String → Except Nat Unit) (st : RendererState) (p : String)
    (frame : PenFrame) (out : String) (hs : st.sentFiles.contains p = false)
    (hf : isSubmitFailure (submit p) = true) :
    serviceRenderFrame submit dl st p frame out
      = (createErrorResult frame p (submitFailureMsg (submit p)),
          { st with sentFiles := p :: st.sentFiles }, 1) := by
  rw [renderFrame_not_sent submit dl st p frame out hs]
  cases hsub : submit p with
  | ok resp => rw [hsub] at hf; simp [isSubmitFailure] at hf
  | httpError a b => rfl
  | pollHttpError a b => rfl
  | jobFailed a b => rfl
  | noResult a => rfl
  | jobTimeout a b => rfl

/-- A sent file with no cache entry renders every frame to the
`not found in API response` error row: no submissions, no renders, no
state change. -/
theorem renderFrames_sent_nocache (env : RunEnv) (cfg : RunConfig) (p : String) :
    ∀ (frames : List PenFrame) (st : RendererState),
      st.sentFiles.contains p = true → cacheGet st.cache p = none →
      renderFrames RendererKind.service env cfg st p frames
        = (frames.map (fun f =>
            { id := f.id, name := f.name
            , error := some ("Frame " ++ f.id ++ " not found in API response") }),
            st, 0, 0) := by
  intro frames
  induction frames with
  | nil => intro st _ _; rfl
  | cons f rest ih =>
    intro st hs hc
    have heq := renderFrame_of_sent env.submit env.download st p f
      (getOutputPath cfg.outputDir p f cfg.imageFormat) hs
    have hserve : serveFromCache env.download st p f
        (getOutputPath cfg.outputDir p f cfg.imageFormat)
        = createErrorResult f p ("Frame " ++ f.id ++ " not found in API response") := by
      unfold serveFromCache
      rw [hc]
      rfl
    simp only [renderFrames, dispatchRenderFrame, heq, hserve, ih st hs hc]
    rfl

/-- A sent file with a cache entry whose every requested frame is present
and downloadable renders every frame successfully, without submissions or
state change. -/
theorem renderFrames_cached_ok (env : RunEnv) (cfg : RunConfig) (p : String)
    (m : List (String × CachedFrame)) :
    ∀ (frames : List PenFrame) (st : RendererState),
      st.sentFiles.contains p = true → cacheGet st.cache p = some m →
      (∀ f ∈ frames, match frameGet m f.id with
        | some c => env.download c.imageUrl = Except.ok ()
        | none => False) →
      ((renderFrames RendererKind.service env cfg st p frames).1.all
          (fun e => e.error.isNone) = true)
      ∧ (renderFrames RendererKind.service env cfg st p frames).2.2.1
          = frames.length
      ∧ (renderFrames RendererKind.service env cfg st p frames).2.1 = st := by
  intro frames
  induction frames with
  | nil => intro st _ _ _; exact ⟨rfl, rfl, rfl⟩
  | cons f rest ih =>
    intro st hs hc hgood
    have hf := hgood f (by simp)
    have heq := renderFrame_of_sent env.submit env.download st p f
      (getOutputPath cfg.outputDir p f cfg.imageFormat) hs
    obtain ⟨c, hfg, hdl⟩ : ∃ c, frameGet m f.id = some c
        ∧ env.download c.imageUrl = Except.ok () := by
      cases hfg : frameGet m f.id with
      | none => rw [hfg] at hf; exact absurd hf (by simp)
      | some c => rw [hfg] at hf; exact ⟨c, rfl, hf⟩
    have hserve : serveFromCache env.download st p f
        (getOutputPath cfg.outputDir p f cfg.imageFormat)
        = { createSuccessResult f p
              (getOutputPath cfg.outputDir p f cfg.imageFormat) with
            imageUrl := some c.imageUrl } := by
      unfold serveFromCache
      rw [hc]
      simp only [Option.bind, hfg, hdl]
    have hrest := ih st hs hc (fun g hg => hgood g (by simp [hg]))
    rcases hrest with ⟨h1, h2, h3⟩
    simp only [renderFrames, dispatchRenderFrame, heq, hserve]
    refine ⟨?_, ?_, ?_⟩
    · simp only [List.all_cons, h1]
      rfl
    · simp only [h2, createSuccessResult, List.length_cons]
      rw [if_pos trivial]
      omega
    · exact h3

/-- A file whose submission throws renders every frame to an error row
and counts no successful render. -/
theorem renderFrames_submit_failure (env : RunEnv) (cfg : RunConfig) (p : String)
    (frames : List PenFrame) (st : RendererState)
    (hs : st.sentFiles.contains p = false)
    (hc : cacheGet st.cache p = none)
    (hf : isSubmitFailure (env.submit p) = true) :
    ((renderFrames RendererKind.service env cfg st p frames).1.all
        (fun e => e.error.isSome) = true)
    ∧ (renderFrames RendererKind.service env cfg st p frames).2.2.1 = 0 := by
  cases frames with
  | nil => exact ⟨rfl, rfl⟩
  | cons f rest =>
    have heq := renderFrame_failure env.submit env.download st p f
      (getOutputPath cfg.outputDir p f cfg.imageFormat) hs hf
    have hs' : ({ st with sentFiles := p :: st.sentFiles } :
        RendererState).sentFiles.contains p = true := by
      simp
    have hc' : cacheGet ({ st with sentFiles := p :: st.sentFiles } :
        RendererState).cache p = none := hc
    have hrest := renderFrames_sent_nocache env cfg p rest _ hs' hc'
    simp only [renderFrames, dispatchRenderFrame, heq, hrest]
    constructor
    · simp [createErrorResult, List.all_eq_true]
    · rfl

/-- Unfolding of `processFile` on a file that loads and parses: the entry
is built from the render loop over the capped frame list. -/
theorem processFile_parsed (kind : RendererKind) (env : RunEnv) (cfg : RunConfig)
    (st : RendererState) (file : PenFile) (doc : Json) (frames : List PenFrame)
    (hd : ¬ file.status = FileStatus.deleted)
    (hdoc : env.fileContent file.path = FileContent.doc doc)
    (hframes : getTopLevelFrames doc = Except.ok frames) :
    processFile kind env cfg st file
      = ({ path := file.path, status := file.status
         , frames := (renderFrames kind env cfg st file.path
             (framesToProcess cfg frames)).1 },
         (renderFrames kind env cfg st file.path (framesToProcess cfg frames)).2.1,
         (renderFrames kind env cfg st file.path (framesToProcess cfg frames)).2.2.1,
         (renderFrames kind env cfg st file.path (framesToProcess cfg frames)).2.2.2) := by
  unfold processFile
  rw [if_neg hd, hdoc]
  simp only [loadPenDocument]
  rw [hframes]

/-- Unfolding of `processFile` on a file whose content fails `JSON.parse`:
the thrown ParseError becomes the file's error entry and nothing is
rendered or submitted. -/
theorem processFile_parse_error (kind : RendererKind) (env : RunEnv)
    (cfg : RunConfig) (st : RendererState) (file : PenFile)
    (hd : ¬ file.status = FileStatus.deleted)
    (hmal : env.fileContent file.path = FileContent.malformed) :
    processFile kind env cfg st file
      = (processingErrorEntry file ("Failed to parse .pen file: " ++ file.path),
          st, 0, 0) := by
  unfold processFile
  rw [if_neg hd, hmal]
  simp only [loadPenDocument]

/-- Unfolding of `processFile` on a missing file: the thrown not-found
error becomes the file's error entry. -/
theorem processFile_not_found (kind : RendererKind) (env : RunEnv)
    (cfg : RunConfig) (st : RendererState) (file : PenFile)
    (hd : ¬ file.status = FileStatus.deleted)
    (hnf : env.fileContent file.path = FileContent.notFound) :
    processFile kind env cfg st file
      = (processingErrorEntry file ("File not found: " ++ file.path), st, 0, 0) := by
  unfold processFile
  rw [if_neg hd, hnf]
  simp only [loadPenDocument]

/-- Unfolding of `processFile` when frame extraction throws a TypeError. -/
theorem processFile_frames_error (kind : RendererKind) (env : RunEnv)
    (cfg : RunConfig) (st : RendererState) (file : PenFile) (doc : Json)
    (msg : String) (hd : ¬ file.status = FileStatus.deleted)
    (hdoc : env.fileContent file.path = FileContent.doc doc)
    (hge : getTopLevelFrames doc = Except.error msg) :
    processFile kind env cfg st file
      = (processingErrorEntry file msg, st, 0, 0) := by
  unfold processFile
  rw [if_neg hd, hdoc]
  simp only [loadPenDocument]
  rw [hge]

/-- Every branch of `processFile` reports the file under its own path. -/
theorem processFile_path (kind : RendererKind) (env : RunEnv) (cfg : RunConfig)
    (st : RendererState) (file : PenFile) :
    (processFile kind env cfg st file).1.path = file.path := by
  by_cases hd : file.status = FileStatus.deleted
  · unfold processFile
    rw [if_pos hd]
  · cases hfc : env.fileContent file.path with
    | notFound =>
      rw [processFile_not_found kind env cfg st file hd hfc]
      rfl
    | malformed =>
      rw [processFile_parse_error kind env cfg st file hd hfc]
      rfl
    | doc j =>
      cases hg : getTopLevelFrames j with
      | error msg =>
        rw [processFile_frames_error kind env cfg st file j msg hd hfc hg]
        rfl
      | ok frames =>
        rw [processFile_parsed kind env cfg st file j frames hd hfc hg]

/-- `runFullMode` reports exactly one entry per changed file, in discovery
order. -/
theorem processFiles_paths (kind : RendererKind) (env : RunEnv) (cfg : RunConfig) :
    ∀ (files : List PenFile) (st : RendererState),
      (processFiles kind env cfg st files).1.map PenFileCommentData.path
        = files.map PenFile.path := by
  intro files
  induction files with
  | nil => intro st; rfl
  | cons file rest ih =>
    intro st
    simp only [processFiles, List.map_cons]
    rw [processFile_path, ih]

/-- C3: per-frame render requests never raise — a failed submission, failed
job or poll timeout surfaces as per-frame error results (success `false`,
error message set) for every frame of that file, the file still appears as
its own entry in the report, and the other files of the run are still
processed and reported (a sibling whose submission succeeds renders all its
frames). -/
theorem c3_render_errors_isolated (cfg : RunConfig) (env : RunEnv)
    (cst : CommentsState) (files : List PenFile) :
    ((runFullMode cfg env cst files).1.map PenFileCommentData.path
      = files.map PenFile.path)
    ∧ (∀ (st : RendererState) (p : String) (frame : PenFrame) (out : String),
      st.sentFiles.contains p = false → isSubmitFailure (env.submit p) = true →
        (serviceRenderFrame env.submit env.download st p frame out).1.success = false
        ∧ ((serviceRenderFrame env.submit env.download st p frame out).1.error).isSome
            = true)
    ∧ (∀ (st : RendererState) (file : PenFile) (doc : Json) (frames : List PenFrame),
      file.status ≠ FileStatus.deleted →
      env.fileContent file.path = FileContent.doc doc →
      getTopLevelFrames doc = Except.ok frames →
      isSubmitFailure (env.submit file.path) = true →
      st.sentFiles.contains file.path = false →
      cacheGet st.cache file.path = none →
        (processFile RendererKind.service env cfg st file).1.path = file.path
        ∧ ((processFile RendererKind.service env cfg st file).1.frames.all
            (fun e => e.error.isSome) = true)
        ∧ (processFile RendererKind.service env cfg st file).2.2.1 = 0)
    ∧ (∀ (st : RendererState) (file : PenFile) (doc : Json) (frames : List PenFrame)
        (resp : ServiceResponse),
      file.status ≠ FileStatus.deleted →
      env.fileContent file.path = FileContent.doc doc →
      getTopLevelFrames doc = Except.ok frames →
      env.submit file.path = SubmitOutcome.ok resp →
      st.sentFiles.contains file.path = false →
      (∀ f ∈ framesToProcess cfg frames,
        match frameGet (buildFrameMap resp.screenshots) f.id with
        | some c => env.download c.imageUrl = Except.ok ()
        | none => False) →
        ((processFile RendererKind.service env cfg st file).1.frames.all
            (fun e => e.error.isNone) = true)
        ∧ (processFile RendererKind.service env cfg st file).2.2.1
            = (framesToProcess cfg frames).length) := by
  refine ⟨?_, ?_, ?_, ?_⟩
  · show (processFiles (chooseRenderer cfg) env cfg initialRendererState files).1.map
        PenFileCommentData.path = files.map PenFile.path
    exact processFiles_paths (chooseRenderer cfg) env cfg files initialRendererState
  · intro st p frame out hs hf
    rw [renderFrame_failure env.submit env.download st p frame out hs hf]
    exact ⟨rfl, rfl⟩
  · intro st file doc frames hd hdoc hframes hf hs hc
    have hpf := processFile_parsed RendererKind.service env cfg st file doc frames
      hd hdoc hframes
    have hloop := renderFrames_submit_failure env cfg file.path
      (framesToProcess cfg frames) st hs hc hf
    rw [hpf]
    exact ⟨rfl, hloop.1, hloop.2⟩
  · intro st file doc frames resp hd hdoc hframes hsub hs hgood
    have key : ∀ fs : List PenFrame,
        (∀ f ∈ fs, match frameGet (buildFrameMap resp.screenshots) f.id with
          | some c => env.download c.imageUrl = Except.ok ()
          | none => False) →
        ((renderFrames RendererKind.service env cfg st file.path fs).1.all
            (fun e => e.error.isNone) = true)
        ∧ (renderFrames RendererKind.service env cfg st file.path fs).2.2.1
            = fs.length := by
      intro fs hg
      cases fs with
      | nil => exact ⟨rfl, rfl⟩
      | cons f rest =>
        have hne : st.sentFiles.contains file.path = false := hs
        have heq0 := renderFrame_not_sent env.submit env.download st file.path f
          (getOutputPath cfg.outputDir file.path f cfg.imageFormat) hne
        rw [hsub] at heq0
        set st' : RendererState :=
          { cache := (file.path, buildFrameMap resp.screenshots) :: st.cache
          , sentFiles := file.path :: st.sentFiles } with hst'
        have hs' : st'.sentFiles.contains file.path = true := by simp [hst']
        have hc' : cacheGet st'.cache file.path
            = some (buildFrameMap resp.screenshots) := by
          rw [hst']
          exact cacheGet_cons_self st.cache file.path _
        have hfg := hg f (by simp)
        obtain ⟨c, hx, hdl⟩ : ∃ c, frameGet (buildFrameMap resp.screenshots) f.id
            = some c ∧ env.download c.imageUrl = Except.ok () := by
          cases hx : frameGet (buildFrameMap resp.screenshots) f.id with
          | none => rw [hx] at hfg; exact absurd hfg (by simp)
          | some c => rw [hx] at hfg; exact ⟨c, rfl, hfg⟩
        have hserve : serveFromCache env.download st' file.path f
            (getOutputPath cfg.outputDir file.path f cfg.imageFormat)
            = { createSuccessResult f file.path
                  (getOutputPath cfg.outputDir file.path f cfg.imageFormat) with
                imageUrl := some c.imageUrl } := by
          unfold serveFromCache
          rw [hc']
          simp only [Option.bind, hx, hdl]
        have hrest := renderFrames_cached_ok env cfg file.path
          (buildFrameMap resp.screenshots) rest st' hs' hc'
          (fun g hgm => hg g (by simp [hgm]))
        rcases hrest with ⟨h1, h2, _⟩
        simp only [renderFrames, dispatchRenderFrame, heq0, hserve]
        refine ⟨?_, ?_⟩
        · simp only [List.all_cons, h1]
          rfl
        · simp only [h2, createSuccessResult, List.length_cons]
          rw [if_pos trivial]
          omega
    have hmain := key (framesToProcess cfg frames) hgood
    have hpf := processFile_parsed RendererKind.service env cfg st file doc frames
      hd hdoc hframes
    rw [hpf]
    exact ⟨hmain.1, hmain.2⟩

/-- Concrete instantiation of the error-isolation theorem: a two-file run
in which `bad.pen`'s job fails terminally and `good.pen` submits and
renders; the failing file reports its frame as an error row with zero
renders, the sibling renders every frame. -/
theorem c3_render_errors_isolated_witness :
    ((processFile RendererKind.service wEnv wCfg initialRendererState
        wFileBad).1.path = wFileBad.path
      ∧ ((processFile RendererKind.service wEnv wCfg initialRendererState
          wFileBad).1.frames.all (fun e => e.error.isSome) = true)
      ∧ (processFile RendererKind.service wEnv wCfg initialRendererState
          wFileBad).2.2.1 = 0)
    ∧ (((processFile RendererKind.service wEnv wCfg initialRendererState
          wFileGood).1.frames.all (fun e => e.error.isNone) = true)
      ∧ (processFile RendererKind.service wEnv wCfg initialRendererState
          wFileGood).2.2.1 = (framesToProcess wCfg [wFrame]).length) :=
  ⟨(c3_render_errors_isolated wCfg wEnv { comments := [], nextId := 0 }
      [wFileBad, wFileGood]).2.2.1 initialRendererState wFileBad wDoc [wFrame]
      (by decide) rfl rfl rfl (by decide) rfl,
    (c3_render_errors_isolated wCfg wEnv { comments := [], nextId := 0 }
      [wFileBad, wFileGood]).2.2.2 initialRendererState wFileGood wDoc [wFrame]
      wResp (by decide) rfl rfl rfl (by decide)
      (by
        intro f hf
        have hf' : f = wFrame := by
          simpa [framesToProcess, wCfg] using hf
        subst hf'
        show wEnv.download "https://img/f1" = Except.ok ()
        rfl)⟩

/-- C7 counterexample: content that is valid JSON but not an object — the
bare number `123` — does NOT fail with a parse error: `loadPenDocument`
returns it as the document, frame extraction yields no frames (property
access on a number is `undefined`), and the file's report entry is a
frame-less success entry, not an error entry. -/
theorem c7_nonobject_counterexample :
    loadPenDocument (FileContent.doc (Json.num 123)) "design.pen"
      = Except.ok (Json.num 123)
    ∧ getTopLevelFrames (Json.num 123) = Except.ok []
    ∧ processFile RendererKind.service
        { fileContent := fun _ => FileContent.doc (Json.num 123)
        , submit := fun _ => SubmitOutcome.ok { success := true, screenshots := [] }
        , download := fun _ => Except.ok ()
        , listOk := true
        , baseContent := fun _ => none
        , diffResp := fun _ => Except.error "" }
        wCfg initialRendererState { path := "design.pen", status := FileStatus.modified }
      = ({ path := "design.pen", status := FileStatus.modified, frames := [] },
          initialRendererState, 0, 0) :=
  ⟨rfl, rfl, rfl⟩

/-- C7 (amended): a document whose content is malformed (fails JSON
parsing) throws a ParseError at load; the error is recorded as that
document's own per-document error entry, nothing is rendered or submitted
for it, and every other changed document of the run is still processed and
reported in order. -/
theorem c7_malformed_parse_error (kind : RendererKind) (cfg : RunConfig)
    (env : RunEnv) (cst : CommentsState) (files : List PenFile) (file : PenFile)
    (st : RendererState)
    (hmal : env.fileContent file.path = FileContent.malformed)
    (hd : file.status ≠ FileStatus.deleted) :
    processFile kind env cfg st file
      = (processingErrorEntry file ("Failed to parse .pen file: " ++ file.path),
          st, 0, 0)
    ∧ (runFullMode cfg env cst files).1.map PenFileCommentData.path
      = files.map PenFile.path :=
  ⟨processFile_parse_error kind env cfg st file hd hmal,
    processFiles_paths (chooseRenderer cfg) env cfg files initialRendererState⟩

/-- Concrete instantiation of the malformed-document theorem: a run of two
files in which the first fails JSON parsing. -/
theorem c7_malformed_parse_error_witness :
    processFile RendererKind.service
      { fileContent := fun p => if p = "bad.pen" then FileContent.malformed
          else FileContent.doc wDoc
      , submit := fun _ => SubmitOutcome.ok wResp
      , download := fun _ => Except.ok ()
      , listOk := true
      , baseContent := fun _ => none
      , diffResp := fun _ => Except.error "" }
      wCfg initialRendererState wFileBad
      = (processingErrorEntry wFileBad "Failed to parse .pen file: bad.pen",
          initialRendererState, 0, 0)
    ∧ (runFullMode wCfg
        { fileContent := fun p => if p = "bad.pen" then FileContent.malformed
            else FileContent.doc wDoc
        , submit := fun _ => SubmitOutcome.ok wResp
        , download := fun _ => Except.ok ()
        , listOk := true
        , baseContent := fun _ => none
        , diffResp := fun _ => Except.error "" }
        { comments := [], nextId := 0 }
        [wFileBad, wFileGood]).1.map PenFileCommentData.path
      = [wFileBad, wFileGood].map PenFile.path :=
  c7_malformed_parse_error RendererKind.service wCfg
    { fileContent := fun p => if p = "bad.pen" then FileContent.malformed
        else FileContent.doc wDoc
    , submit := fun _ => SubmitOutcome.ok wResp
    , download := fun _ => Except.ok ()
    , listOk := true
    , baseContent := fun _ => none
    , diffResp := fun _ => Except.error "" }
    { comments := [], nextId := 0 } [wFileBad, wFileGood] wFileBad
    initialRendererState rfl (by decide)

/-- C8: with no changed `.pen` files, the orchestrator publishes the
"no changes" report exactly when comment mode is not `none`, sets the
frames-rendered output to zero, the changed-files output to the empty list
and the screenshots path to the empty string, and returns without
constructing a renderer or submitting any render job. -/
theorem c8_no_changes_short_circuit (cfg : RunConfig) (env : RunEnv)
    (cst : CommentsState) :
    (cfg.commentMode ≠ CommentMode.none →
      (run cfg env cst []).postCalls = [noChangesBody cfg.marker])
    ∧ (cfg.commentMode = CommentMode.none → (run cfg env cst []).postCalls = [])
    ∧ (run cfg env cst []).outputs
      = { screenshotsPath := "", changedFiles := [], framesRendered := 0 }
    ∧ (run cfg env cst []).rendererInitialized = false
    ∧ (run cfg env cst []).submissions = 0 := by
  by_cases hmode : cfg.commentMode = CommentMode.none
  · refine ⟨fun hne => absurd hmode hne, fun _ => ?_, ?_, ?_, ?_⟩ <;>
      simp [run, hmode]
  · refine ⟨fun _ => ?_, fun he => absurd he hmode, ?_, ?_, ?_⟩ <;>
      simp [run, hmode]

/-- Concrete instantiation of the empty-run short circuit, in `update`
comment mode. -/
theorem c8_no_changes_short_circuit_witness :
    (run wCfg wEnv { comments := [], nextId := 0 } []).postCalls
      = [noChangesBody wCfg.marker]
    ∧ (run wCfg wEnv { comments := [], nextId := 0 } []).outputs
      = { screenshotsPath := "", changedFiles := [], framesRendered := 0 }
    ∧ (run wCfg wEnv { comments := [], nextId := 0 } []).rendererInitialized = false
    ∧ (run wCfg wEnv { comments := [], nextId := 0 } []).submissions = 0 :=
  ⟨(c8_no_changes_short_circuit wCfg wEnv { comments := [], nextId := 0 }).1
      (by decide),
    (c8_no_changes_short_circuit wCfg wEnv { comments := [], nextId := 0 }).2.2.1,
    (c8_no_changes_short_circuit wCfg wEnv { comments := [], nextId := 0 }).2.2.2.1,
    (c8_no_changes_short_circuit wCfg wEnv { comments := [], nextId := 0 }).2.2.2.2⟩

end PencilActions
